import Mathlib

/-!
Verification development for the IDAES control-volume balance-equation
generator (src/idaes/core/control_volume0d.py and control_volume1d.py).

The Pyomo equation graph is shallowly embedded: a balance equation is a pair
of symbolic expressions over opaque indexed atoms (variables and
property-package supplied terms), and each balance-building method is
translated to a Lean function producing the created variables, constraints
and (optionally) an error, mirroring the order of checks and mutations in
the Python source.
-/

namespace IdaesCV

/-- Index values used on Pyomo components: time / space points are numeric,
phases, components, reactions and elements are strings. -/
inductive Idx where
  | num : ℚ → Idx
  | str : String → Idx
deriving DecidableEq

/-- Names of the Pyomo Vars / Expressions created or referenced by the two
control-volume classes.  Named after the attributes in the source (leading
underscores dropped).  Atoms such as material_flow_in stand for the opaque
expressions returned by the property-package method contract
(get_material_flow_terms on properties_in, etc.). -/
inductive VName where
  | volume
  | area
  | length
  | material_holdup
  | material_accumulation
  | rate_reaction_generation
  | equilibrium_reaction_generation
  | phase_equilibrium_generation
  | mass_transfer_term
  | rate_reaction_extent
  | equilibrium_reaction_extent
  | element_holdup
  | element_accumulation
  | elemental_flow_term
  | elemental_flow_dx
  | elemental_flow_in
  | elemental_flow_out
  | elemental_mass_transfer_term
  | flow_terms
  | material_flow_dx
  | enthalpy_flow
  | enthalpy_flow_dx
  | energy_holdup
  | energy_accumulation
  | heat
  | work
  | heat_of_reaction
  | deltaP
  | pressure
  | pressure_dx
  | phase_fraction
  | mw
  | material_flow_in
  | material_flow_out
  | enthalpy_flow_in
  | enthalpy_flow_out
  | pressure_in
  | pressure_out
  | rxn_rate_conv
deriving DecidableEq

/-- Names of the mutable scaling Params created by the 0-D / 1-D balance
methods. -/
inductive PName where
  | scaling_factor_energy
  | scaling_factor_pressure
deriving DecidableEq, BEq

/-- Shallow embedding of a Pyomo algebraic expression. -/
inductive Expr where
  | lit : ℚ → Expr
  | evar : VName → List Idx → Expr
  | param : PName → Expr
  | add : Expr → Expr → Expr
  | sub : Expr → Expr → Expr
  | mul : Expr → Expr → Expr
  | div : Expr → Expr → Expr
  | neg : Expr → Expr
deriving DecidableEq

/-- Evaluate an expression under a valuation of the variable atoms and of
the scaling parameters. -/
def Expr.eval (vv : VName → List Idx → ℚ) (pv : PName → ℚ) : Expr → ℚ
  | .lit q => q
  | .evar n ix => vv n ix
  | .param n => pv n
  | .add a b => a.eval vv pv + b.eval vv pv
  | .sub a b => a.eval vv pv - b.eval vv pv
  | .mul a b => a.eval vv pv * b.eval vv pv
  | .div a b => a.eval vv pv / b.eval vv pv
  | .neg a => - a.eval vv pv

/-- True when the expression references no scaling parameter. -/
def Expr.paramFree : Expr → Bool
  | .lit _ => true
  | .evar _ _ => true
  | .param _ => false
  | .add a b => a.paramFree && b.paramFree
  | .sub a b => a.paramFree && b.paramFree
  | .mul a b => a.paramFree && b.paramFree
  | .div a b => a.paramFree && b.paramFree
  | .neg a => a.paramFree

/-- Python's sum() over a list of expressions: a left fold starting at 0,
as produced by the generator expressions in the source. -/
def esum (l : List Expr) : Expr := l.foldl Expr.add (Expr.lit 0)

/-- True exactly for the scaling parameter named n. -/
def Expr.isParamN (n : PName) : Expr → Bool
  | .param m => decide (m = n)
  | _ => false

/-- A syntactic certificate that every additive leaf of the expression is a
product base * (param n) with a parameter-free base (or a literal 0). -/
def Expr.scaledBy (n : PName) : Expr → Bool
  | .lit q => q == 0
  | .add a b => a.scaledBy n && b.scaledBy n
  | .sub a b => a.scaledBy n && b.scaledBy n
  | .mul a b => b.isParamN n && a.paramFree
  | _ => false

/-- Override the value of one scaling parameter in a valuation. -/
def pvUpd (pv : PName → ℚ) (n : PName) (q : ℚ) : PName → ℚ :=
  fun m => if m = n then q else pv m

/-- A Pyomo Constraint body: left-hand side == right-hand side. -/
def Constraint := Expr × Expr
deriving instance DecidableEq for Constraint
deriving instance DecidableEq for Except

/-- A valuation satisfies a constraint when both sides evaluate equal. -/
def cSatisfied (vv : VName → List Idx → ℚ) (pv : PName → ℚ) (c : Constraint) : Prop :=
  c.1.eval vv pv = c.2.eval vv pv

/-- The errors raised by the control-volume methods
(idaes.core.util.exceptions). -/
inductive BuildErr where
  | configurationError
  | balanceTypeNotSupportedError
  | propertyNotSupportedError
  | propertyPackageError
  | burntToast
deriving DecidableEq

/-- MaterialBalanceType members used by the balance dispatch. -/
inductive MaterialBalanceType where
  | componentPhase
  | componentTotal
  | elementTotal
  | total
deriving DecidableEq, BEq, Fintype

/-- MaterialFlowBasis members from the property-package contract. -/
inductive FlowBasis where
  | molar
  | mass
  | other
deriving DecidableEq

/-- The slice of the property-package contract consumed by the balance
builders: phase list, component list, phase-component set, and the
phase-equilibrium reaction table (phase_equilibrium_list maps a reaction
index to (component, (phase_1, phase_2))). -/
structure PropertyPackage where
  phase_list : List String
  component_list : List String
  pc_set : List (String × String)
  phase_equilibrium_idx : List String
  phase_equilibrium_list : String → String × String × String

/-- Flags handed to _add_material_balance_common (both variants): balance
type dispatch plus the dynamic/has_holdup config flags and the four
toggleable term flags. -/
structure MatBalCfg where
  balance_type : MaterialBalanceType
  dynamic : Bool
  has_holdup : Bool
  has_rate_reactions : Bool
  has_equilibrium_reactions : Bool
  has_phase_equilibrium : Bool
  has_mass_transfer : Bool
deriving DecidableEq

/-- Observable state of a control volume block: which Vars, derived
Expressions and Constraints have been attached to it so far, and whether
state / reaction blocks were constructed. -/
structure CVState where
  vars : List VName
  exprs : List VName
  constraints : List String
  stateBlocksAdded : Bool
  reactionBlocksAdded : Bool
deriving DecidableEq

def CVState.addVar (s : CVState) (v : VName) : CVState :=
  { s with vars := s.vars ++ [v] }

def CVState.addExpr (s : CVState) (v : VName) : CVState :=
  { s with exprs := s.exprs ++ [v] }

def CVState.addCon (s : CVState) (c : String) : CVState :=
  { s with constraints := s.constraints ++ [c] }

/-- A freshly built control volume (before any add_* call). -/
def emptyCV : CVState :=
  { vars := [], exprs := [], constraints := [], stateBlocksAdded := false,
    reactionBlocksAdded := false }

/-- hasattr(self, "phase_fraction"): true once either the multi-phase Var or
the single-phase Expression exists. -/
def CVState.hasPhaseFraction (s : CVState) : Bool :=
  (VName.phase_fraction ∈ s.vars) ∨ (VName.phase_fraction ∈ s.exprs)

/-- _add_phase_fractions viewed as a state mutation (both variants branch on
len(phase_list) > 1; multiPhase abbreviates that test).  The per-point
constraint content of the same method is modelled separately below. -/
def addPhaseFractionsState (multiPhase : Bool) (s : CVState) : CVState :=
  if multiPhase then
    (s.addVar VName.phase_fraction).addCon "sum_of_phase_fractions"
  else
    s.addExpr VName.phase_fraction

/-- Capabilities of the surrounding blocks consulted by the 0-D
_add_material_balance_common checks. -/
structure Env0D where
  reactionsExist : Bool
  rblockHasEquilibrium : Bool
  inHasPhaseEquilibrium : Bool
  outHasPhaseEquilibrium : Bool
  hasVolume : Bool
  pkgHasRateIdx : Bool
  pkgHasEquilIdx : Bool
  pkgHasPEIdx : Bool
  multiPhase : Bool
deriving DecidableEq

/-- An environment in which every optional capability is available. -/
def capableEnv0D : Env0D :=
  { reactionsExist := true, rblockHasEquilibrium := true,
    inHasPhaseEquilibrium := true, outHasPhaseEquilibrium := true,
    hasVolume := true, pkgHasRateIdx := true, pkgHasEquilIdx := true,
    pkgHasPEIdx := true, multiPhase := true }

/-- Capabilities consulted by the 1-D _add_material_balance_common checks
(the 1-D variant has no volume-before-holdup check). -/
structure Env1D where
  reactionsExist : Bool
  rblockHasEquilibrium : Bool
  propsHavePhaseEquilibrium : Bool
  pkgHasRateIdx : Bool
  pkgHasEquilIdx : Bool
  pkgHasPEIdx : Bool
  multiPhase : Bool
deriving DecidableEq

def capableEnv1D : Env1D :=
  { reactionsExist := true, rblockHasEquilibrium := true,
    propsHavePhaseEquilibrium := true, pkgHasRateIdx := true,
    pkgHasEquilIdx := true, pkgHasPEIdx := true, multiPhase := true }

/-!
Variable-creation sequence of _add_material_balance_common, 0-D variant
(control_volume0d.py lines 193-595).  The function mirrors the order of the
checks and of the self.x = Var(...) assignments: a raise leaves every
previously created component in place and adds nothing further.
-/

def addMaterialBalances0D (env : Env0D) (cfg : MatBalCfg) (s0 : CVState) :
    CVState × Option BuildErr :=
  if (cfg.has_rate_reactions || cfg.has_equilibrium_reactions) && !env.reactionsExist then
    (s0, some BuildErr.configurationError)
  else if cfg.has_equilibrium_reactions && !env.rblockHasEquilibrium then
    (s0, some BuildErr.configurationError)
  else if cfg.has_phase_equilibrium && !env.outHasPhaseEquilibrium then
    (s0, some BuildErr.configurationError)
  else if cfg.has_phase_equilibrium && !env.inHasPhaseEquilibrium then
    (s0, some BuildErr.configurationError)
  else if cfg.has_holdup && !env.hasVolume then
    (s0, some BuildErr.configurationError)
  else
    let s1 := if cfg.has_holdup then s0.addVar VName.material_holdup else s0
    let s2 := if cfg.dynamic then s1.addVar VName.material_accumulation else s1
    if cfg.has_rate_reactions && !env.pkgHasRateIdx then
      (s2, some BuildErr.propertyNotSupportedError)
    else
    let s3 := if cfg.has_rate_reactions then s2.addVar VName.rate_reaction_generation else s2
    if cfg.has_equilibrium_reactions && !env.pkgHasEquilIdx then
      (s3, some BuildErr.propertyNotSupportedError)
    else
    let s4 := if cfg.has_equilibrium_reactions then
                s3.addVar VName.equilibrium_reaction_generation
              else s3
    if cfg.has_phase_equilibrium &&
        (cfg.balance_type == MaterialBalanceType.componentPhase) && !env.pkgHasPEIdx then
      (s4, some BuildErr.propertyNotSupportedError)
    else
    let s5 := if cfg.has_phase_equilibrium &&
                  (cfg.balance_type == MaterialBalanceType.componentPhase) then
                s4.addVar VName.phase_equilibrium_generation
              else s4
    let s6 := if cfg.has_mass_transfer then s5.addVar VName.mass_transfer_term else s5
    let s7 := if cfg.has_holdup then
                (if !s6.hasPhaseFraction then addPhaseFractionsState env.multiPhase s6
                 else s6).addCon "material_holdup_calculation"
              else s6
    let s8 := if cfg.has_rate_reactions then
                (s7.addVar VName.rate_reaction_extent).addCon
                  "rate_reaction_stoichiometry_constraint"
              else s7
    let s9 := if cfg.has_equilibrium_reactions then
                (s8.addVar VName.equilibrium_reaction_extent).addCon
                  "equilibrium_reaction_stoichiometry_constraint"
              else s8
    match cfg.balance_type with
    | MaterialBalanceType.componentPhase => (s9.addCon "material_balances", none)
    | MaterialBalanceType.componentTotal => (s9.addCon "material_balances", none)
    | _ => (s9, some BuildErr.burntToast)

/-!
Variable-creation sequence of _add_material_balance_common, 1-D variant
(control_volume1d.py lines 305-758).  _flow_terms, the flow linking
constraint and the flow derivative are created unconditionally; there is no
geometry check, and the final dispatch has no else branch (no BurntToast).
-/

def addMaterialBalances1D (env : Env1D) (cfg : MatBalCfg) (s0 : CVState) :
    CVState × Option BuildErr :=
  if (cfg.has_rate_reactions || cfg.has_equilibrium_reactions) && !env.reactionsExist then
    (s0, some BuildErr.configurationError)
  else if cfg.has_equilibrium_reactions && !env.rblockHasEquilibrium then
    (s0, some BuildErr.configurationError)
  else if cfg.has_phase_equilibrium && !env.propsHavePhaseEquilibrium then
    (s0, some BuildErr.configurationError)
  else
    let s1 := if cfg.has_holdup then s0.addVar VName.material_holdup else s0
    let s2 := if cfg.dynamic then s1.addVar VName.material_accumulation else s1
    let s3 := ((s2.addVar VName.flow_terms).addCon
                 "material_flow_linking_constraints").addVar VName.material_flow_dx
    if cfg.has_rate_reactions && !env.pkgHasRateIdx then
      (s3, some BuildErr.propertyNotSupportedError)
    else
    let s4 := if cfg.has_rate_reactions then s3.addVar VName.rate_reaction_generation else s3
    if cfg.has_equilibrium_reactions && !env.pkgHasEquilIdx then
      (s4, some BuildErr.propertyNotSupportedError)
    else
    let s5 := if cfg.has_equilibrium_reactions then
                s4.addVar VName.equilibrium_reaction_generation
              else s4
    if cfg.has_phase_equilibrium &&
        (cfg.balance_type == MaterialBalanceType.componentPhase) && !env.pkgHasPEIdx then
      (s5, some BuildErr.propertyNotSupportedError)
    else
    let s6 := if cfg.has_phase_equilibrium &&
                  (cfg.balance_type == MaterialBalanceType.componentPhase) then
                s5.addVar VName.phase_equilibrium_generation
              else s5
    let s7 := if cfg.has_mass_transfer then s6.addVar VName.mass_transfer_term else s6
    let s8 := if cfg.has_holdup then
                (if !s7.hasPhaseFraction then addPhaseFractionsState env.multiPhase s7
                 else s7).addCon "material_holdup_calculation"
              else s7
    let s9 := if cfg.has_rate_reactions then
                (s8.addVar VName.rate_reaction_extent).addCon
                  "rate_reaction_stoichiometry_constraint"
              else s8
    let s10 := if cfg.has_equilibrium_reactions then
                 (s9.addVar VName.equilibrium_reaction_extent).addCon
                   "equilibrium_reaction_stoichiometry_constraint"
               else s9
    match cfg.balance_type with
    | MaterialBalanceType.componentPhase => (s10.addCon "material_balances", none)
    | MaterialBalanceType.componentTotal => (s10.addCon "material_balances", none)
    | _ => (s10, none)

/-! Term-substitution rules of the 0-D material balance (source lines
347-385): each returns the corresponding variable if the toggle is on, and
the Python literal 0 otherwise. -/

def idx0 (t : ℚ) (p j : String) : List Idx := [Idx.num t, Idx.str p, Idx.str j]

def accumulation_term0D (cfg : MatBalCfg) (t : ℚ) (p j : String) : Expr :=
  if cfg.dynamic then Expr.evar VName.material_accumulation (idx0 t p j) else Expr.lit 0

def kinetic_term0D (cfg : MatBalCfg) (t : ℚ) (p j : String) : Expr :=
  if cfg.has_rate_reactions then Expr.evar VName.rate_reaction_generation (idx0 t p j)
  else Expr.lit 0

def equilibrium_term0D (cfg : MatBalCfg) (t : ℚ) (p j : String) : Expr :=
  if cfg.has_equilibrium_reactions then
    Expr.evar VName.equilibrium_reaction_generation (idx0 t p j)
  else Expr.lit 0

def transfer_term0D (cfg : MatBalCfg) (t : ℚ) (p j : String) : Expr :=
  if cfg.has_mass_transfer then Expr.evar VName.mass_transfer_term (idx0 t p j)
  else Expr.lit 0

/-- The sd dictionary built inside phase_equilibrium_term (0-D source lines
363-376): sign selecting how reaction r moves component j into / out of
phase p. -/
def sd0D (pp : PropertyPackage) (r p j : String) : ℚ :=
  if (pp.phase_equilibrium_list r).1 = j then
    if (pp.phase_equilibrium_list r).2.1 = p then 1
    else if (pp.phase_equilibrium_list r).2.2 = p then -1
    else 0
  else 0

def phase_equilibrium_term0D (cfg : MatBalCfg) (pp : PropertyPackage) (t : ℚ)
    (p j : String) : Expr :=
  if cfg.has_phase_equilibrium &&
      (cfg.balance_type == MaterialBalanceType.componentPhase) then
    esum (pp.phase_equilibrium_idx.map (fun r =>
      Expr.mul (Expr.evar VName.phase_equilibrium_generation [Idx.num t, Idx.str r])
               (Expr.lit (sd0D pp r p j))))
  else Expr.lit 0

/-! Custom (user) terms of the 0-D component-phase balance (source lines
454-502), including the basis conversion through mw and its two failure
modes. -/

def user_term_mol0Dcp (custom_molar_term : Option (ℚ → String → String → Expr))
    (flow_basis : FlowBasis) (mwSupported : Bool) (t : ℚ) (p j : String) :
    Except BuildErr Expr :=
  match custom_molar_term with
  | none => Except.ok (Expr.lit 0)
  | some f =>
    match flow_basis with
    | FlowBasis.molar => Except.ok (f t p j)
    | FlowBasis.mass =>
        if mwSupported then Except.ok (Expr.mul (f t p j) (Expr.evar VName.mw [Idx.str j]))
        else Except.error BuildErr.propertyNotSupportedError
    | FlowBasis.other => Except.error BuildErr.configurationError

def user_term_mass0Dcp (custom_mass_term : Option (ℚ → String → String → Expr))
    (flow_basis : FlowBasis) (mwSupported : Bool) (t : ℚ) (p j : String) :
    Except BuildErr Expr :=
  match custom_mass_term with
  | none => Except.ok (Expr.lit 0)
  | some f =>
    match flow_basis with
    | FlowBasis.mass => Except.ok (f t p j)
    | FlowBasis.molar =>
        if mwSupported then Except.ok (Expr.div (f t p j) (Expr.evar VName.mw [Idx.str j]))
        else Except.error BuildErr.propertyNotSupportedError
    | FlowBasis.other => Except.error BuildErr.configurationError

def user_term_mol0Dct (custom_molar_term : Option (ℚ → String → Expr))
    (flow_basis : FlowBasis) (mwSupported : Bool) (t : ℚ) (j : String) :
    Except BuildErr Expr :=
  match custom_molar_term with
  | none => Except.ok (Expr.lit 0)
  | some f =>
    match flow_basis with
    | FlowBasis.molar => Except.ok (f t j)
    | FlowBasis.mass =>
        if mwSupported then Except.ok (Expr.mul (f t j) (Expr.evar VName.mw [Idx.str j]))
        else Except.error BuildErr.propertyNotSupportedError
    | FlowBasis.other => Except.error BuildErr.configurationError

def user_term_mass0Dct (custom_mass_term : Option (ℚ → String → Expr))
    (flow_basis : FlowBasis) (mwSupported : Bool) (t : ℚ) (j : String) :
    Except BuildErr Expr :=
  match custom_mass_term with
  | none => Except.ok (Expr.lit 0)
  | some f =>
    match flow_basis with
    | FlowBasis.mass => Except.ok (f t j)
    | FlowBasis.molar =>
        if mwSupported then Except.ok (Expr.div (f t j) (Expr.evar VName.mw [Idx.str j]))
        else Except.error BuildErr.propertyNotSupportedError
    | FlowBasis.other => Except.error BuildErr.configurationError

/-- 0-D component-phase material balance rule (source lines 504-520):
accumulation == in - out + kinetic * rate-conversion + equilibrium +
phase-equilibrium + transfer + custom molar + custom mass, skipped outside
the phase-component set. -/
def material_balances0Dcp (cfg : MatBalCfg) (pp : PropertyPackage)
    (cmolar cmass : Option (ℚ → String → String → Expr)) (flow_basis : FlowBasis)
    (mwSupported : Bool) (t : ℚ) (p j : String) : Except BuildErr (Option Constraint) :=
  if (p, j) ∈ pp.pc_set then
    match user_term_mol0Dcp cmolar flow_basis mwSupported t p j with
    | Except.error e => Except.error e
    | Except.ok um =>
      match user_term_mass0Dcp cmass flow_basis mwSupported t p j with
      | Except.error e => Except.error e
      | Except.ok ums =>
        Except.ok (some
          (accumulation_term0D cfg t p j,
           Expr.add (Expr.add (Expr.add (Expr.add (Expr.add
             (Expr.add
               (Expr.sub (Expr.evar VName.material_flow_in (idx0 t p j))
                         (Expr.evar VName.material_flow_out (idx0 t p j)))
               (Expr.mul (kinetic_term0D cfg t p j)
                         (Expr.evar VName.rxn_rate_conv [Idx.num t, Idx.str j])))
             (equilibrium_term0D cfg t p j))
             (phase_equilibrium_term0D cfg pp t p j))
             (transfer_term0D cfg t p j))
             um)
             ums))
  else Except.ok none

/-- 0-D component-total material balance rule (source lines 573-591). -/
def material_balances0Dct (cfg : MatBalCfg) (pp : PropertyPackage)
    (cmolar cmass : Option (ℚ → String → Expr)) (flow_basis : FlowBasis)
    (mwSupported : Bool) (t : ℚ) (j : String) : Except BuildErr (Option Constraint) :=
  let cplist := pp.phase_list.filter (fun p => (p, j) ∈ pp.pc_set)
  match user_term_mol0Dct cmolar flow_basis mwSupported t j with
  | Except.error e => Except.error e
  | Except.ok um =>
    match user_term_mass0Dct cmass flow_basis mwSupported t j with
    | Except.error e => Except.error e
    | Except.ok ums =>
      Except.ok (some
        (esum (cplist.map (fun p => accumulation_term0D cfg t p j)),
         Expr.add (Expr.add (Expr.add (Expr.add
           (Expr.add
             (Expr.sub
               (esum (cplist.map (fun p => Expr.evar VName.material_flow_in (idx0 t p j))))
               (esum (cplist.map (fun p => Expr.evar VName.material_flow_out (idx0 t p j)))))
             (Expr.mul (esum (cplist.map (fun p => kinetic_term0D cfg t p j)))
                       (Expr.evar VName.rxn_rate_conv [Idx.num t, Idx.str j])))
           (esum (cplist.map (fun p => equilibrium_term0D cfg t p j))))
           (esum (cplist.map (fun p => transfer_term0D cfg t p j))))
           um)
           ums))

/-! Term-substitution rules of the 1-D material balance (source lines
485-524) and the five 1-D balance rules with their boundary-skip tests. -/

def idx1 (t x : ℚ) (p j : String) : List Idx :=
  [Idx.num t, Idx.num x, Idx.str p, Idx.str j]

def accumulation_term1D (cfg : MatBalCfg) (t x : ℚ) (p j : String) : Expr :=
  if cfg.dynamic then Expr.evar VName.material_accumulation (idx1 t x p j) else Expr.lit 0

def kinetic_term1D (cfg : MatBalCfg) (t x : ℚ) (p j : String) : Expr :=
  if cfg.has_rate_reactions then Expr.evar VName.rate_reaction_generation (idx1 t x p j)
  else Expr.lit 0

def equilibrium_term1D (cfg : MatBalCfg) (t x : ℚ) (p j : String) : Expr :=
  if cfg.has_equilibrium_reactions then
    Expr.evar VName.equilibrium_reaction_generation (idx1 t x p j)
  else Expr.lit 0

def transfer_term1D (cfg : MatBalCfg) (t x : ℚ) (p j : String) : Expr :=
  if cfg.has_mass_transfer then Expr.evar VName.mass_transfer_term (idx1 t x p j)
  else Expr.lit 0

/-- The sd dictionary of the 1-D phase_equilibrium_term (source lines
498-514; the computation duplicates the 0-D one). -/
def sd1D (pp : PropertyPackage) (r p j : String) : ℚ :=
  if (pp.phase_equilibrium_list r).1 = j then
    if (pp.phase_equilibrium_list r).2.1 = p then 1
    else if (pp.phase_equilibrium_list r).2.2 = p then -1
    else 0
  else 0

def phase_equilibrium_term1D (cfg : MatBalCfg) (pp : PropertyPackage) (t x : ℚ)
    (p j : String) : Expr :=
  if cfg.has_phase_equilibrium &&
      (cfg.balance_type == MaterialBalanceType.componentPhase) then
    esum (pp.phase_equilibrium_idx.map (fun r =>
      Expr.mul (Expr.evar VName.phase_equilibrium_generation
                  [Idx.num t, Idx.num x, Idx.str r])
               (Expr.lit (sd1D pp r p j))))
  else Expr.lit 0

def user_term_mol1Dcp (custom_molar_term : Option (ℚ → ℚ → String → String → Expr))
    (flow_basis : FlowBasis) (mwSupported : Bool) (t x : ℚ) (p j : String) :
    Except BuildErr Expr :=
  match custom_molar_term with
  | none => Except.ok (Expr.lit 0)
  | some f =>
    match flow_basis with
    | FlowBasis.molar => Except.ok (f t x p j)
    | FlowBasis.mass =>
        if mwSupported then
          Except.ok (Expr.mul (f t x p j) (Expr.evar VName.mw [Idx.str j]))
        else Except.error BuildErr.propertyNotSupportedError
    | FlowBasis.other => Except.error BuildErr.configurationError

def user_term_mass1Dcp (custom_mass_term : Option (ℚ → ℚ → String → String → Expr))
    (flow_basis : FlowBasis) (mwSupported : Bool) (t x : ℚ) (p j : String) :
    Except BuildErr Expr :=
  match custom_mass_term with
  | none => Except.ok (Expr.lit 0)
  | some f =>
    match flow_basis with
    | FlowBasis.mass => Except.ok (f t x p j)
    | FlowBasis.molar =>
        if mwSupported then
          Except.ok (Expr.div (f t x p j) (Expr.evar VName.mw [Idx.str j]))
        else Except.error BuildErr.propertyNotSupportedError
    | FlowBasis.other => Except.error BuildErr.configurationError

def user_term_mol1Dct (custom_molar_term : Option (ℚ → ℚ → String → Expr))
    (flow_basis : FlowBasis) (mwSupported : Bool) (t x : ℚ) (j : String) :
    Except BuildErr Expr :=
  match custom_molar_term with
  | none => Except.ok (Expr.lit 0)
  | some f =>
    match flow_basis with
    | FlowBasis.molar => Except.ok (f t x j)
    | FlowBasis.mass =>
        if mwSupported then Except.ok (Expr.mul (f t x j) (Expr.evar VName.mw [Idx.str j]))
        else Except.error BuildErr.propertyNotSupportedError
    | FlowBasis.other => Except.error BuildErr.configurationError

def user_term_mass1Dct (custom_mass_term : Option (ℚ → ℚ → String → Expr))
    (flow_basis : FlowBasis) (mwSupported : Bool) (t x : ℚ) (j : String) :
    Except BuildErr Expr :=
  match custom_mass_term with
  | none => Except.ok (Expr.lit 0)
  | some f =>
    match flow_basis with
    | FlowBasis.mass => Except.ok (f t x j)
    | FlowBasis.molar =>
        if mwSupported then Except.ok (Expr.div (f t x j) (Expr.evar VName.mw [Idx.str j]))
        else Except.error BuildErr.propertyNotSupportedError
    | FlowBasis.other => Except.error BuildErr.configurationError

/-- The scalar length Var referenced throughout the 1-D balances. -/
def lenV : Expr := Expr.evar VName.length []

/-- 1-D component-phase material balance rule (source lines 651-675),
including the boundary skip test of lines 656-659. -/
def material_balances1Dcp (cfg : MatBalCfg) (pp : PropertyPackage) (scheme : String)
    (first last fdt : ℚ)
    (cmolar cmass : Option (ℚ → ℚ → String → String → Expr)) (flow_basis : FlowBasis)
    (mwSupported : Bool) (t x : ℚ) (p j : String) : Except BuildErr (Option Constraint) :=
  if (¬ scheme = "FORWARD" ∧ x = first) ∨ (scheme = "FORWARD" ∧ x = last) then
    Except.ok none
  else if (p, j) ∈ pp.pc_set then
    match user_term_mol1Dcp cmolar flow_basis mwSupported t x p j with
    | Except.error e => Except.error e
    | Except.ok um =>
      match user_term_mass1Dcp cmass flow_basis mwSupported t x p j with
      | Except.error e => Except.error e
      | Except.ok ums =>
        Except.ok (some
          (Expr.mul lenV (accumulation_term1D cfg t x p j),
           Expr.add (Expr.add (Expr.add (Expr.add (Expr.add
             (Expr.add
               (Expr.mul (Expr.lit fdt) (Expr.evar VName.material_flow_dx (idx1 t x p j)))
               (Expr.mul (Expr.mul lenV (kinetic_term1D cfg t x p j))
                         (Expr.evar VName.rxn_rate_conv [Idx.num t, Idx.num x, Idx.str j])))
             (Expr.mul lenV (equilibrium_term1D cfg t x p j)))
             (Expr.mul lenV (phase_equilibrium_term1D cfg pp t x p j)))
             (Expr.mul lenV (transfer_term1D cfg t x p j)))
             (Expr.mul lenV um))
             (Expr.mul lenV ums)))
  else Except.ok none

/-- 1-D component-total material balance rule (source lines 729-758),
including the boundary skip test of lines 734-737. -/
def material_balances1Dct (cfg : MatBalCfg) (pp : PropertyPackage) (scheme : String)
    (first last fdt : ℚ)
    (cmolar cmass : Option (ℚ → ℚ → String → Expr)) (flow_basis : FlowBasis)
    (mwSupported : Bool) (t x : ℚ) (j : String) : Except BuildErr (Option Constraint) :=
  if (¬ scheme = "FORWARD" ∧ x = first) ∨ (scheme = "FORWARD" ∧ x = last) then
    Except.ok none
  else
    let cplist := pp.phase_list.filter (fun p => (p, j) ∈ pp.pc_set)
    match user_term_mol1Dct cmolar flow_basis mwSupported t x j with
    | Except.error e => Except.error e
    | Except.ok um =>
      match user_term_mass1Dct cmass flow_basis mwSupported t x j with
      | Except.error e => Except.error e
      | Except.ok ums =>
        Except.ok (some
          (Expr.mul lenV (esum (cplist.map (fun p => accumulation_term1D cfg t x p j))),
           Expr.add (Expr.add (Expr.add (Expr.add (Expr.add
             (Expr.mul (Expr.lit fdt)
               (esum (cplist.map (fun p => Expr.evar VName.material_flow_dx (idx1 t x p j)))))
             (Expr.mul (Expr.mul lenV
                 (esum (cplist.map (fun p => kinetic_term1D cfg t x p j))))
               (Expr.evar VName.rxn_rate_conv [Idx.num t, Idx.num x, Idx.str j])))
             (Expr.mul lenV (esum (cplist.map (fun p => equilibrium_term1D cfg t x p j)))))
             (Expr.mul lenV (esum (cplist.map (fun p => transfer_term1D cfg t x p j)))))
             (Expr.mul lenV um))
             (Expr.mul lenV ums)))

/-! 1-D element balance terms and rule (source lines 986-1019). -/

def el_accumulation_term1D (dynamic : Bool) (t x : ℚ) (e : String) : Expr :=
  if dynamic then Expr.evar VName.element_accumulation [Idx.num t, Idx.num x, Idx.str e]
  else Expr.lit 0

def el_transfer_term1D (has_mass_transfer : Bool) (t x : ℚ) (e : String) : Expr :=
  if has_mass_transfer then
    Expr.evar VName.elemental_mass_transfer_term [Idx.num t, Idx.num x, Idx.str e]
  else Expr.lit 0

def el_user_term1D (custom : Option (ℚ → ℚ → String → Expr)) (t x : ℚ) (e : String) :
    Expr :=
  match custom with
  | some f => f t x e
  | none => Expr.lit 0

/-- 1-D element balance rule (source lines 1004-1019), including the
boundary skip test of lines 1009-1012. -/
def element_balances1D (dynamic has_mass_transfer : Bool)
    (custom : Option (ℚ → ℚ → String → Expr)) (scheme : String)
    (first last fdt t x : ℚ) (e : String) : Option Constraint :=
  if (¬ scheme = "FORWARD" ∧ x = first) ∨ (scheme = "FORWARD" ∧ x = last) then none
  else some
    (Expr.mul lenV (el_accumulation_term1D dynamic t x e),
     Expr.add
       (Expr.add
         (Expr.mul (Expr.lit fdt)
           (Expr.evar VName.elemental_flow_dx [Idx.num t, Idx.num x, Idx.str e]))
         (Expr.mul lenV (el_transfer_term1D has_mass_transfer t x e)))
       (Expr.mul lenV (el_user_term1D custom t x e)))

/-! 1-D enthalpy balance terms and rule (source lines 1191-1234). -/

def e_accumulation_term1D (dynamic : Bool) (t x : ℚ) (p : String) : Expr :=
  if dynamic then Expr.evar VName.energy_accumulation [Idx.num t, Idx.num x, Idx.str p]
  else Expr.lit 0

def heat_term1D (has_heat_transfer : Bool) (t x : ℚ) : Expr :=
  if has_heat_transfer then Expr.evar VName.heat [Idx.num t, Idx.num x] else Expr.lit 0

def work_term1D (has_work_transfer : Bool) (t x : ℚ) : Expr :=
  if has_work_transfer then Expr.evar VName.work [Idx.num t, Idx.num x] else Expr.lit 0

def rxn_heat_term1D (has_heat_of_reaction : Bool) (t x : ℚ) : Expr :=
  if has_heat_of_reaction then Expr.evar VName.heat_of_reaction [Idx.num t, Idx.num x]
  else Expr.lit 0

def user_term_tx (custom : Option (ℚ → ℚ → Expr)) (t x : ℚ) : Expr :=
  match custom with
  | some f => f t x
  | none => Expr.lit 0

def sfE : Expr := Expr.param PName.scaling_factor_energy

def sfP : Expr := Expr.param PName.scaling_factor_pressure

/-- 1-D enthalpy balance rule (source lines 1213-1234), including the
boundary skip test of lines 1217-1220. -/
def enthalpy_balances1D (dynamic hh hw hr : Bool) (custom : Option (ℚ → ℚ → Expr))
    (pp : PropertyPackage) (scheme : String) (first last fdt t x : ℚ) :
    Option Constraint :=
  if (¬ scheme = "FORWARD" ∧ x = first) ∨ (scheme = "FORWARD" ∧ x = last) then none
  else some
    (Expr.mul
       (Expr.mul lenV
         (esum (pp.phase_list.map (fun p => e_accumulation_term1D dynamic t x p))))
       sfE,
     Expr.add (Expr.add (Expr.add (Expr.add
       (Expr.mul
         (Expr.mul (Expr.lit fdt)
           (esum (pp.phase_list.map (fun p =>
              Expr.evar VName.enthalpy_flow_dx [Idx.num t, Idx.num x, Idx.str p]))))
         sfE)
       (Expr.mul (Expr.mul lenV (heat_term1D hh t x)) sfE))
       (Expr.mul (Expr.mul lenV (work_term1D hw t x)) sfE))
       (Expr.mul (Expr.mul lenV (rxn_heat_term1D hr t x)) sfE))
       (Expr.mul (Expr.mul lenV (user_term_tx custom t x)) sfE))

/-! 1-D pressure balance terms and rule (source lines 1326-1360). -/

def deltaP_term1D (has_pressure_change : Bool) (t x : ℚ) : Expr :=
  if has_pressure_change then Expr.evar VName.deltaP [Idx.num t, Idx.num x]
  else Expr.lit 0

/-- 1-D momentum (pressure) balance rule (source lines 1345-1360),
including the boundary skip test of lines 1349-1352. -/
def pressure_balance1D (has_pressure_change : Bool) (custom : Option (ℚ → ℚ → Expr))
    (scheme : String) (first last fdt t x : ℚ) : Option Constraint :=
  if (¬ scheme = "FORWARD" ∧ x = first) ∨ (scheme = "FORWARD" ∧ x = last) then none
  else some
    (Expr.lit 0,
     Expr.add
       (Expr.add
         (Expr.mul (Expr.mul (Expr.lit fdt) (Expr.evar VName.pressure_dx [Idx.num t, Idx.num x]))
           sfP)
         (Expr.mul (Expr.mul lenV (deltaP_term1D has_pressure_change t x)) sfP))
       (Expr.mul (Expr.mul lenV (user_term_tx custom t x)) sfP))

/-! 0-D enthalpy balance terms and constraint (source lines 991-1027). -/

def e_accumulation_term0D (dynamic : Bool) (t : ℚ) (p : String) : Expr :=
  if dynamic then Expr.evar VName.energy_accumulation [Idx.num t, Idx.str p]
  else Expr.lit 0

def heat_term0D (has_heat_transfer : Bool) (t : ℚ) : Expr :=
  if has_heat_transfer then Expr.evar VName.heat [Idx.num t] else Expr.lit 0

def work_term0D (has_work_transfer : Bool) (t : ℚ) : Expr :=
  if has_work_transfer then Expr.evar VName.work [Idx.num t] else Expr.lit 0

def rxn_heat_term0D (has_heat_of_reaction : Bool) (t : ℚ) : Expr :=
  if has_heat_of_reaction then Expr.evar VName.heat_of_reaction [Idx.num t]
  else Expr.lit 0

def user_term_t (custom : Option (ℚ → Expr)) (t : ℚ) : Expr :=
  match custom with
  | some f => f t
  | none => Expr.lit 0

/-- 0-D enthalpy balance constraint at time t (source lines 1013-1027):
every additive term of both sides carries scaling_factor_energy. -/
def enthalpy_balances0D (dynamic hh hw hr : Bool) (custom : Option (ℚ → Expr))
    (pp : PropertyPackage) (t : ℚ) : Constraint :=
  (Expr.mul (esum (pp.phase_list.map (fun p => e_accumulation_term0D dynamic t p))) sfE,
   Expr.add (Expr.add (Expr.add (Expr.add
     (Expr.sub
       (Expr.mul (esum (pp.phase_list.map (fun p =>
          Expr.evar VName.enthalpy_flow_in [Idx.num t, Idx.str p]))) sfE)
       (Expr.mul (esum (pp.phase_list.map (fun p =>
          Expr.evar VName.enthalpy_flow_out [Idx.num t, Idx.str p]))) sfE))
     (Expr.mul (heat_term0D hh t) sfE))
     (Expr.mul (work_term0D hw t) sfE))
     (Expr.mul (rxn_heat_term0D hr t) sfE))
     (Expr.mul (user_term_t custom t) sfE))

/-! 0-D pressure balance terms and constraint (source lines 1093-1119). -/

def deltaP_term0D (has_pressure_change : Bool) (t : ℚ) : Expr :=
  if has_pressure_change then Expr.evar VName.deltaP [Idx.num t] else Expr.lit 0

/-- 0-D momentum (pressure) balance constraint at time t (source lines
1112-1119): every additive term carries scaling_factor_pressure. -/
def pressure_balance0D (has_pressure_change : Bool) (custom : Option (ℚ → Expr))
    (t : ℚ) : Constraint :=
  (Expr.lit 0,
   Expr.add
     (Expr.add
       (Expr.sub
         (Expr.mul (Expr.evar VName.pressure_in [Idx.num t]) sfP)
         (Expr.mul (Expr.evar VName.pressure_out [Idx.num t]) sfP))
       (Expr.mul (deltaP_term0D has_pressure_change t) sfP))
     (Expr.mul (user_term_t custom t) sfP))

/-! _add_phase_fractions, constraint-level view (0-D source lines
1276-1308, 1-D source lines 1617-1652). -/

structure PhaseFracResult where
  varInit : Option ℚ
  exprConst : Option ℚ
  constraints : List Constraint
deriving DecidableEq

/-- 0-D _add_phase_fractions: multi-phase creates a Var initialized at
1/num_phases plus one sum-of-fractions constraint per time point; otherwise
a constant-1 Expression. -/
def add_phase_fractions0D (pp : PropertyPackage) (timePts : List ℚ) : PhaseFracResult :=
  if 1 < pp.phase_list.length then
    { varInit := some (1 / (pp.phase_list.length : ℚ)),
      exprConst := none,
      constraints := timePts.map (fun t =>
        (Expr.lit 1, esum (pp.phase_list.map (fun p =>
           Expr.evar VName.phase_fraction [Idx.num t, Idx.str p])))) }
  else
    { varInit := none, exprConst := some 1, constraints := [] }

/-- 1-D _add_phase_fractions: the same shape with one constraint per
(time, length) point. -/
def add_phase_fractions1D (pp : PropertyPackage) (timePts lenPts : List ℚ) :
    PhaseFracResult :=
  if 1 < pp.phase_list.length then
    { varInit := some (1 / (pp.phase_list.length : ℚ)),
      exprConst := none,
      constraints := (timePts.map (fun t => lenPts.map (fun x =>
        (Expr.lit 1, esum (pp.phase_list.map (fun p =>
           Expr.evar VName.phase_fraction [Idx.num t, Idx.num x, Idx.str p])))))).flatten }
  else
    { varInit := none, exprConst := some 1, constraints := [] }

/-!
add_total_element_balances, 0-D variant (source lines 687-865): validation
precedes every component creation, so a raised flag error leaves the state
untouched.
-/

def addTotalElementBalances0D (env : Env0D) (pkgHasElements dynamic has_holdup : Bool)
    (has_rate has_equil has_pe has_mass_transfer : Bool) (s0 : CVState) :
    CVState × Option BuildErr :=
  if !pkgHasElements then (s0, some BuildErr.propertyNotSupportedError)
  else if has_rate then (s0, some BuildErr.configurationError)
  else if has_equil then (s0, some BuildErr.configurationError)
  else if has_pe then (s0, some BuildErr.configurationError)
  else if has_holdup && !env.hasVolume then (s0, some BuildErr.configurationError)
  else
    let s1 := if has_holdup then s0.addVar VName.element_holdup else s0
    let s2 := if dynamic then s1.addVar VName.element_accumulation else s1
    let s3 := (s2.addExpr VName.elemental_flow_in).addExpr VName.elemental_flow_out
    let s4 := if has_mass_transfer then s3.addVar VName.elemental_mass_transfer_term else s3
    let s5 := s4.addCon "element_balances"
    let s6 := if has_holdup then
                (if !s5.hasPhaseFraction then addPhaseFractionsState env.multiPhase s5
                 else s5).addCon "elemental_holdup_calculation"
              else s5
    (s6, none)

/-- add_total_element_balances, 1-D variant (source lines 850-1041); the
1-D variant has no geometry check and creates the elemental flow linking
Var/Constraint and flow derivative unconditionally. -/
def addTotalElementBalances1D (env : Env1D) (pkgHasElements dynamic has_holdup : Bool)
    (has_rate has_equil has_pe has_mass_transfer : Bool) (s0 : CVState) :
    CVState × Option BuildErr :=
  if !pkgHasElements then (s0, some BuildErr.propertyNotSupportedError)
  else if has_rate then (s0, some BuildErr.configurationError)
  else if has_equil then (s0, some BuildErr.configurationError)
  else if has_pe then (s0, some BuildErr.configurationError)
  else
    let s1 := if has_holdup then s0.addVar VName.element_holdup else s0
    let s2 := if dynamic then s1.addVar VName.element_accumulation else s1
    let s3 := ((s2.addVar VName.elemental_flow_term).addCon
                 "elemental_flow_constraint").addVar VName.elemental_flow_dx
    let s4 := if has_mass_transfer then s3.addVar VName.elemental_mass_transfer_term else s3
    let s5 := s4.addCon "element_balances"
    let s6 := if has_holdup then
                (if !s5.hasPhaseFraction then addPhaseFractionsState env.multiPhase s5
                 else s5).addCon "elemental_holdup_calculation"
              else s5
    (s6, none)

/-!
The unsupported balance methods.  Each body in the source is a single
raise BalanceTypeNotSupportedError before any mutation (0-D lines 867-871,
1044-1060 and 1123-1139; 1-D lines 1043-1047, 1253-1269 and 1364-1380).
-/

def add_total_material_balances0D (s : CVState) : CVState × Option BuildErr :=
  (s, some BuildErr.balanceTypeNotSupportedError)

def add_phase_enthalpy_balances0D (s : CVState) : CVState × Option BuildErr :=
  (s, some BuildErr.balanceTypeNotSupportedError)

def add_phase_energy_balances0D (s : CVState) : CVState × Option BuildErr :=
  (s, some BuildErr.balanceTypeNotSupportedError)

def add_total_energy_balances0D (s : CVState) : CVState × Option BuildErr :=
  (s, some BuildErr.balanceTypeNotSupportedError)

def add_phase_pressure_balances0D (s : CVState) : CVState × Option BuildErr :=
  (s, some BuildErr.balanceTypeNotSupportedError)

def add_phase_momentum_balances0D (s : CVState) : CVState × Option BuildErr :=
  (s, some BuildErr.balanceTypeNotSupportedError)

def add_total_momentum_balances0D (s : CVState) : CVState × Option BuildErr :=
  (s, some BuildErr.balanceTypeNotSupportedError)

def add_total_material_balances1D (s : CVState) : CVState × Option BuildErr :=
  (s, some BuildErr.balanceTypeNotSupportedError)

def add_phase_enthalpy_balances1D (s : CVState) : CVState × Option BuildErr :=
  (s, some BuildErr.balanceTypeNotSupportedError)

def add_phase_energy_balances1D (s : CVState) : CVState × Option BuildErr :=
  (s, some BuildErr.balanceTypeNotSupportedError)

def add_total_energy_balances1D (s : CVState) : CVState × Option BuildErr :=
  (s, some BuildErr.balanceTypeNotSupportedError)

def add_phase_pressure_balances1D (s : CVState) : CVState × Option BuildErr :=
  (s, some BuildErr.balanceTypeNotSupportedError)

def add_phase_momentum_balances1D (s : CVState) : CVState × Option BuildErr :=
  (s, some BuildErr.balanceTypeNotSupportedError)

def add_total_momentum_balances1D (s : CVState) : CVState × Option BuildErr :=
  (s, some BuildErr.balanceTypeNotSupportedError)

/-!
0-D initialize control flow (source lines 1178-1258).  The sub-initializers
of the in/out state blocks are external collaborators; their documented
contract is: on success the defining state variables end up fixed when
hold_state is True and released when it is False.  The only exception
handler in the method is the except AttributeError around
reactions.initialize; any other exception propagates, and because there is
no try/finally, properties_out.release_state is then never reached.
-/

inductive ReactionInitBehavior where
  | absent
  | succeeds
  | raisesSolverError
deriving DecidableEq

structure Init0DOutcome where
  inletFixedFinal : Bool
  outletFixedFinal : Bool
  raised : Bool
  flagsReturned : Bool
deriving DecidableEq

def cv0dInitRoutine (reactions : ReactionInitBehavior) (hold_state : Bool) :
    Init0DOutcome :=
  let inletFixed := hold_state
  let outletFixed := true
  match reactions with
  | ReactionInitBehavior.raisesSolverError =>
      { inletFixedFinal := inletFixed, outletFixedFinal := outletFixed,
        raised := true, flagsReturned := false }
  | _ =>
      { inletFixedFinal := inletFixed, outletFixedFinal := false,
        raised := false, flagsReturned := true }

/-!
State-variable gathering when initialize is called without state_args.
0-D source lines 1205-1220 copy the current values (None included) with no
check and no fixing; 1-D source lines 1503-1532 fix each variable that has
a value and raise as soon as one is None.
-/

structure SVar where
  value : Option ℚ
  fixed : Bool
deriving DecidableEq

inductive SEntry where
  | scalar : SVar → SEntry
  | indexed : List (String × SVar) → SEntry
deriving DecidableEq

inductive ArgEntry where
  | scalar : Option ℚ → ArgEntry
  | indexed : List (String × Option ℚ) → ArgEntry
deriving DecidableEq

def SEntry.toArg : SEntry → ArgEntry
  | SEntry.scalar v => ArgEntry.scalar v.value
  | SEntry.indexed l => ArgEntry.indexed (l.map (fun kv => (kv.1, kv.2.value)))

/-- 0-D gather: state_args[k] := state_dict[k].value for every key and
member, None values included; no error path, no fixing. -/
def cv0dGatherStateArgs (stateDict : List (String × SEntry)) :
    List (String × ArgEntry) :=
  stateDict.map (fun kv => (kv.1, kv.2.toArg))

/-- One indexed member loop of the 1-D source-fixing pass: fix members in
order until one has no value, then stop with failure (members already
fixed stay fixed). -/
def fixMembers : List (String × SVar) → List (String × SVar) × Bool
  | [] => ([], true)
  | (m, v) :: rest =>
    if v.value.isSome then
      let r := fixMembers rest
      ((m, { v with fixed := true }) :: r.1, r.2)
    else ((m, v) :: rest, false)

/-- 1-D source-state fixing when state_args is None: walks the port
members, fixes every variable that has a value and aborts with an
exception at the first None value. -/
def cv1dFixSource : List (String × SEntry) → List (String × SEntry) × Bool
  | [] => ([], true)
  | (k, SEntry.scalar v) :: rest =>
    if v.value.isSome then
      let r := cv1dFixSource rest
      ((k, SEntry.scalar { v with fixed := true }) :: r.1, r.2)
    else ((k, SEntry.scalar v) :: rest, false)
  | (k, SEntry.indexed l) :: rest =>
    let m := fixMembers l
    if m.2 then
      let r := cv1dFixSource rest
      ((k, SEntry.indexed m.1) :: r.1, r.2)
    else ((k, SEntry.indexed m.1) :: rest, false)

/-- True when some state variable in the dict has no current value. -/
def hasNoneValue (d : List (String × SEntry)) : Bool :=
  d.any (fun kv =>
    match kv.2 with
    | SEntry.scalar v => v.value.isNone
    | SEntry.indexed l => l.any (fun mv => mv.2.value.isNone))

/-- Every variable of the entry is currently unfixed. -/
def SEntry.allUnfixed : SEntry → Bool
  | SEntry.scalar v => !v.fixed
  | SEntry.indexed l => l.all (fun mv => !mv.2.fixed)

/-- Every fixed variable of the entry carries an actual value: the fixing
pass never fixed a variable whose value was None. -/
def SEntry.fixedHasValue : SEntry → Bool
  | SEntry.scalar v => !v.fixed || v.value.isSome
  | SEntry.indexed l => l.all (fun mv => !mv.2.fixed || mv.2.value.isSome)

/-- True when some gathered argument is a None value. -/
def argHasNone (l : List (String × ArgEntry)) : Bool :=
  l.any (fun kv =>
    match kv.2 with
    | ArgEntry.scalar v => v.isNone
    | ArgEntry.indexed m => m.any (fun mv => mv.2.isNone))

/-!
Python-level validation of the has_phase_equilibrium / has_equilibrium
arguments (0-D lines 105-127 and 165-173; 1-D lines 236-244 and 283-291).
The membership test `x not in [True, False]` uses Python equality, under
which 1 == True and 0 == False.
-/

inductive PyVal where
  | pynone
  | pybool : Bool → PyVal
  | pyint : Int → PyVal
  | pystr : String → PyVal
deriving DecidableEq

/-- Python == on the modelled values: booleans compare equal to their
integer values, None is only equal to itself. -/
def pyEq : PyVal → PyVal → Bool
  | PyVal.pynone, PyVal.pynone => true
  | PyVal.pybool a, PyVal.pybool b => a == b
  | PyVal.pyint a, PyVal.pyint b => a == b
  | PyVal.pybool a, PyVal.pyint b => (if a then (1 : Int) else 0) == b
  | PyVal.pyint a, PyVal.pybool b => a == (if b then (1 : Int) else 0)
  | PyVal.pystr a, PyVal.pystr b => a == b
  | _, _ => false

/-- Python `v in [True, False]`. -/
def pyInTrueFalse (v : PyVal) : Bool :=
  [PyVal.pybool true, PyVal.pybool false].any (fun w => pyEq v w)

/-- 0-D add_state_blocks: argument validation, then state block
construction (PropertyPackageError when the package lacks
state_block_class, lines 129-150). -/
def add_state_blocks0D (has_phase_equilibrium : PyVal) (pkgHasStateBlockClass : Bool)
    (s : CVState) : CVState × Option BuildErr :=
  if has_phase_equilibrium = PyVal.pynone then (s, some BuildErr.configurationError)
  else if !pyInTrueFalse has_phase_equilibrium then (s, some BuildErr.configurationError)
  else if !pkgHasStateBlockClass then (s, some BuildErr.propertyPackageError)
  else ({ s with stateBlocksAdded := true }, none)

/-- 1-D add_state_blocks: same argument validation, no class-guarding
try/except (lines 218-268). -/
def add_state_blocks1D (has_phase_equilibrium : PyVal) (s : CVState) :
    CVState × Option BuildErr :=
  if has_phase_equilibrium = PyVal.pynone then (s, some BuildErr.configurationError)
  else if !pyInTrueFalse has_phase_equilibrium then (s, some BuildErr.configurationError)
  else ({ s with stateBlocksAdded := true }, none)

/-- 0-D add_reaction_blocks (lines 152-191). -/
def add_reaction_blocks0D (has_equilibrium : PyVal) (pkgHasReactionBlockClass : Bool)
    (s : CVState) : CVState × Option BuildErr :=
  if has_equilibrium = PyVal.pynone then (s, some BuildErr.configurationError)
  else if !pyInTrueFalse has_equilibrium then (s, some BuildErr.configurationError)
  else if !pkgHasReactionBlockClass then (s, some BuildErr.propertyPackageError)
  else ({ s with reactionBlocksAdded := true }, none)

/-- 1-D add_reaction_blocks (lines 270-303). -/
def add_reaction_blocks1D (has_equilibrium : PyVal) (s : CVState) :
    CVState × Option BuildErr :=
  if has_equilibrium = PyVal.pynone then (s, some BuildErr.configurationError)
  else if !pyInTrueFalse has_equilibrium then (s, some BuildErr.configurationError)
  else ({ s with reactionBlocksAdded := true }, none)

/-!
Claim-side definitions, written from the words of the specification, for
comparison with the source-derived definitions above.
-/

/-- Modelled from the spec: the boundary-skip rule of section 4.4 — skip
the first point unless the scheme is FORWARD, in which case skip the last
point. -/
def boundarySkip (scheme : String) (first last x : ℚ) : Prop :=
  (¬ scheme = "FORWARD" ∧ x = first) ∨ (scheme = "FORWARD" ∧ x = last)

instance (scheme : String) (first last x : ℚ) :
    Decidable (boundarySkip scheme first last x) := by
  unfold boundarySkip
  infer_instance

/-- Modelled from the spec: the signed indicator of section 4.2 — +1 when
the reaction's target component is j and p is the first phase of its phase
pair, -1 when p is the second phase, 0 otherwise (in particular whenever
the target component differs from j). -/
def specPhaseEquilibriumIndicator (pp : PropertyPackage) (r p j : String) : ℚ :=
  if (pp.phase_equilibrium_list r).1 = j ∧ (pp.phase_equilibrium_list r).2.1 = p then 1
  else if (pp.phase_equilibrium_list r).1 = j ∧ (pp.phase_equilibrium_list r).2.2 = p then -1
  else 0

/-! Helper lemmas about expression evaluation. -/

theorem eval_foldl_add (vv : VName → List Idx → ℚ) (pv : PName → ℚ)
    (l : List Expr) : ∀ acc : Expr,
    (l.foldl Expr.add acc).eval vv pv = acc.eval vv pv + (l.map (Expr.eval vv pv)).sum := by
  induction l with
  | nil => intro acc; simp
  | cons e l ih =>
      intro acc
      simp only [List.foldl_cons, List.map_cons, List.sum_cons]
      rw [ih]
      simp only [Expr.eval]
      ring

theorem eval_esum (vv : VName → List Idx → ℚ) (pv : PName → ℚ) (l : List Expr) :
    (esum l).eval vv pv = (l.map (Expr.eval vv pv)).sum := by
  unfold esum
  rw [eval_foldl_add]
  simp [Expr.eval]

theorem paramFree_eval_congr {e : Expr} (h : e.paramFree = true)
    (vv : VName → List Idx → ℚ) (pv1 pv2 : PName → ℚ) :
    e.eval vv pv1 = e.eval vv pv2 := by
  induction e with
  | lit q => rfl
  | evar n ix => rfl
  | param n => simp [Expr.paramFree] at h
  | add a b iha ihb =>
      simp only [Expr.paramFree, Bool.and_eq_true] at h
      simp [Expr.eval, iha h.1, ihb h.2]
  | sub a b iha ihb =>
      simp only [Expr.paramFree, Bool.and_eq_true] at h
      simp [Expr.eval, iha h.1, ihb h.2]
  | mul a b iha ihb =>
      simp only [Expr.paramFree, Bool.and_eq_true] at h
      simp [Expr.eval, iha h.1, ihb h.2]
  | div a b iha ihb =>
      simp only [Expr.paramFree, Bool.and_eq_true] at h
      simp [Expr.eval, iha h.1, ihb h.2]
  | neg a iha =>
      simp only [Expr.paramFree] at h
      simp [Expr.eval, iha h]

theorem paramFree_foldl_add (l : List Expr) (h : ∀ e ∈ l, e.paramFree = true) :
    ∀ acc : Expr, acc.paramFree = true → (l.foldl Expr.add acc).paramFree = true := by
  induction l with
  | nil => intro acc hacc; simpa using hacc
  | cons e l ih =>
      intro acc hacc
      simp only [List.foldl_cons]
      refine ih (fun x hx => h x (List.mem_cons_of_mem _ hx)) _ ?_
      simp only [Expr.paramFree, Bool.and_eq_true]
      exact ⟨hacc, h e (List.mem_cons_self _ _)⟩

theorem paramFree_esum (l : List Expr) (h : ∀ e ∈ l, e.paramFree = true) :
    (esum l).paramFree = true := by
  unfold esum
  exact paramFree_foldl_add l h _ rfl

theorem scaledBy_eval_hom (n : PName) (vv : VName → List Idx → ℚ) (pv : PName → ℚ)
    (s : ℚ) (e : Expr) (h : e.scaledBy n = true) :
    e.eval vv (pvUpd pv n s) = s * e.eval vv (pvUpd pv n 1) := by
  induction e with
  | lit q =>
      simp only [Expr.scaledBy, beq_iff_eq] at h
      simp [Expr.eval, h]
  | evar v ix => simp [Expr.scaledBy] at h
  | param m => simp [Expr.scaledBy] at h
  | add a b iha ihb =>
      simp only [Expr.scaledBy, Bool.and_eq_true] at h
      simp only [Expr.eval, iha h.1, ihb h.2]
      ring
  | sub a b iha ihb =>
      simp only [Expr.scaledBy, Bool.and_eq_true] at h
      simp only [Expr.eval, iha h.1, ihb h.2]
      ring
  | mul a b iha ihb =>
      simp only [Expr.scaledBy, Bool.and_eq_true] at h
      obtain ⟨hb, ha⟩ := h
      cases b with
      | param m =>
          simp only [Expr.isParamN, decide_eq_true_eq] at hb
          subst hb
          simp only [Expr.eval]
          rw [paramFree_eval_congr ha vv (pvUpd pv m s) (pvUpd pv m 1)]
          have hs : pvUpd pv m s m = s := by simp [pvUpd]
          have h1 : pvUpd pv m 1 m = 1 := by simp [pvUpd]
          rw [hs, h1]
          ring
      | lit q => simp [Expr.isParamN] at hb
      | evar v ix => simp [Expr.isParamN] at hb
      | add c d => simp [Expr.isParamN] at hb
      | sub c d => simp [Expr.isParamN] at hb
      | mul c d => simp [Expr.isParamN] at hb
      | div c d => simp [Expr.isParamN] at hb
      | neg c => simp [Expr.isParamN] at hb
  | div a b iha ihb => simp [Expr.scaledBy] at h
  | neg a iha => simp [Expr.scaledBy] at h

/-! Claim theorems. -/

/-- C2: on both the 0-D and 1-D control volume, each of the seven
unsupported balance methods (total material, phase enthalpy, phase energy,
total energy, phase pressure, phase momentum, total momentum) raises
BalanceTypeNotSupportedError immediately and leaves the control volume with
no new variables or constraints. -/
theorem claim_c2_unsupported_balance_methods (s : CVState) :
    add_total_material_balances0D s = (s, some BuildErr.balanceTypeNotSupportedError) ∧
    add_phase_enthalpy_balances0D s = (s, some BuildErr.balanceTypeNotSupportedError) ∧
    add_phase_energy_balances0D s = (s, some BuildErr.balanceTypeNotSupportedError) ∧
    add_total_energy_balances0D s = (s, some BuildErr.balanceTypeNotSupportedError) ∧
    add_phase_pressure_balances0D s = (s, some BuildErr.balanceTypeNotSupportedError) ∧
    add_phase_momentum_balances0D s = (s, some BuildErr.balanceTypeNotSupportedError) ∧
    add_total_momentum_balances0D s = (s, some BuildErr.balanceTypeNotSupportedError) ∧
    add_total_material_balances1D s = (s, some BuildErr.balanceTypeNotSupportedError) ∧
    add_phase_enthalpy_balances1D s = (s, some BuildErr.balanceTypeNotSupportedError) ∧
    add_phase_energy_balances1D s = (s, some BuildErr.balanceTypeNotSupportedError) ∧
    add_total_energy_balances1D s = (s, some BuildErr.balanceTypeNotSupportedError) ∧
    add_phase_pressure_balances1D s = (s, some BuildErr.balanceTypeNotSupportedError) ∧
    add_phase_momentum_balances1D s = (s, some BuildErr.balanceTypeNotSupportedError) ∧
    add_total_momentum_balances1D s = (s, some BuildErr.balanceTypeNotSupportedError) :=
  ⟨rfl, rfl, rfl, rfl, rfl, rfl, rfl, rfl, rfl, rfl, rfl, rfl, rfl, rfl⟩

/-- C7: with an element-supporting property package, calling
add_total_element_balances with has_rate_reactions, or
has_equilibrium_reactions, or has_phase_equilibrium set True raises a
ConfigurationError on both variants with the control volume state
untouched (no variable or constraint created). -/
theorem claim_c7_element_balance_rejects_reaction_flags
    (env0 : Env0D) (env1 : Env1D) (dynamic has_holdup : Bool)
    (hr he hpe hmt : Bool) (s : CVState)
    (h : hr = true ∨ he = true ∨ hpe = true) :
    addTotalElementBalances0D env0 true dynamic has_holdup hr he hpe hmt s
      = (s, some BuildErr.configurationError) ∧
    addTotalElementBalances1D env1 true dynamic has_holdup hr he hpe hmt s
      = (s, some BuildErr.configurationError) := by
  constructor
  · rcases h with h | h | h <;> subst h
    · simp [addTotalElementBalances0D]
    · cases hr <;> simp [addTotalElementBalances0D]
    · cases hr <;> cases he <;> simp [addTotalElementBalances0D]
  · rcases h with h | h | h <;> subst h
    · simp [addTotalElementBalances1D]
    · cases hr <;> simp [addTotalElementBalances1D]
    · cases hr <;> cases he <;> simp [addTotalElementBalances1D]

/-- Witness for C7 at a concrete input: has_rate_reactions = True on a
fresh control volume. -/
theorem claim_c7_element_balance_rejects_reaction_flags_witness :
    addTotalElementBalances0D capableEnv0D true false false true false false false emptyCV
      = (emptyCV, some BuildErr.configurationError) :=
  (claim_c7_element_balance_rejects_reaction_flags capableEnv0D capableEnv1D false false
      true false false false emptyCV (Or.inl rfl)).1

/-- C8 counterexample: when the reaction-block initialization raises a
non-AttributeError exception (for example a solver failure), the 0-D
initialize never reaches properties_out.release_state, so the outlet state
block remains fixed — the release is not unconditional. -/
theorem claim_c8_release_counterexample :
    (cv0dInitRoutine ReactionInitBehavior.raisesSolverError true).raised = true ∧
    (cv0dInitRoutine ReactionInitBehavior.raisesSolverError true).outletFixedFinal = true := by
  decide

/-- C8 amended: whenever the 0-D initialize returns normally (no exception
escapes — including the absent-reaction-block case, whose AttributeError is
swallowed), the outlet fixing has been released, the inlet fixing persists
exactly when hold_state is True, and the fixing flags are returned. -/
theorem claim_c8_release_amended (r : ReactionInitBehavior) (hold : Bool)
    (hok : (cv0dInitRoutine r hold).raised = false) :
    (cv0dInitRoutine r hold).outletFixedFinal = false ∧
    (cv0dInitRoutine r hold).inletFixedFinal = hold ∧
    (cv0dInitRoutine r hold).flagsReturned = true := by
  cases r <;> simp_all [cv0dInitRoutine]

/-- Witness for the amended C8 at a concrete input: a successful
reaction-block initialization with hold_state = True. -/
theorem claim_c8_release_amended_witness :
    (cv0dInitRoutine ReactionInitBehavior.succeeds true).outletFixedFinal = false ∧
    (cv0dInitRoutine ReactionInitBehavior.succeeds true).inletFixedFinal = true ∧
    (cv0dInitRoutine ReactionInitBehavior.succeeds true).flagsReturned = true :=
  claim_c8_release_amended ReactionInitBehavior.succeeds true rfl

/-- C10 counterexample: the integer 1 is not the boolean True, yet
add_state_blocks accepts it (Python's membership test uses ==, and
1 == True), constructs the state blocks and raises nothing. -/
theorem claim_c10_validation_counterexample :
    (add_state_blocks0D (PyVal.pyint 1) true emptyCV).2 = none ∧
    (add_state_blocks0D (PyVal.pyint 1) true emptyCV).1.stateBlocksAdded = true ∧
    PyVal.pyint 1 ≠ PyVal.pybool true ∧ PyVal.pyint 1 ≠ PyVal.pybool false ∧
    PyVal.pyint 1 ≠ PyVal.pynone := by
  decide

/-- C10 amended: add_state_blocks and add_reaction_blocks on both variants
raise a ConfigurationError, constructing nothing, exactly when the
argument is None or is a value that Python's == equates with neither True
nor False; values == 1 or == 0 (such as the integers 1 and 0) are accepted
as booleans. -/
theorem claim_c10_validation_amended (v : PyVal) (pkgS pkgR : Bool) (s : CVState)
    (h : v = PyVal.pynone ∨
         (pyEq v (PyVal.pybool true) = false ∧ pyEq v (PyVal.pybool false) = false)) :
    add_state_blocks0D v pkgS s = (s, some BuildErr.configurationError) ∧
    add_state_blocks1D v s = (s, some BuildErr.configurationError) ∧
    add_reaction_blocks0D v pkgR s = (s, some BuildErr.configurationError) ∧
    add_reaction_blocks1D v s = (s, some BuildErr.configurationError) := by
  rcases h with h | ⟨h1, h2⟩
  · subst h
    simp [add_state_blocks0D, add_state_blocks1D, add_reaction_blocks0D,
          add_reaction_blocks1D]
  · have hin : pyInTrueFalse v = false := by
      simp [pyInTrueFalse, h1, h2]
    by_cases hv : v = PyVal.pynone
    · subst hv
      simp [add_state_blocks0D, add_state_blocks1D, add_reaction_blocks0D,
            add_reaction_blocks1D]
    · simp [add_state_blocks0D, add_state_blocks1D, add_reaction_blocks0D,
            add_reaction_blocks1D, hv, hin]

/-- Witness for the amended C10 at a concrete input: a string argument is
rejected by all four methods. -/
theorem claim_c10_validation_amended_witness :
    add_state_blocks0D (PyVal.pystr "x") true emptyCV
      = (emptyCV, some BuildErr.configurationError) :=
  (claim_c10_validation_amended (PyVal.pystr "x") true true emptyCV
      (Or.inr ⟨rfl, rfl⟩)).1

/-! Helper lemmas for the state-variable fixing pass of the 1-D
initialization routine. -/

theorem fixMembers_fail_iff (l : List (String × SVar)) :
    (fixMembers l).2 = false ↔ l.any (fun mv => mv.2.value.isNone) = true := by
  induction l with
  | nil => simp [fixMembers]
  | cons mv rest ih =>
      obtain ⟨m, v⟩ := mv
      cases hv : v.value with
      | none => simp [fixMembers, hv]
      | some a => simp [fixMembers, hv, ih]

theorem fixMembers_fixed_value (l : List (String × SVar))
    (h : ∀ mv ∈ l, mv.2.fixed = false) :
    ∀ mv ∈ (fixMembers l).1, (!mv.2.fixed || mv.2.value.isSome) = true := by
  induction l with
  | nil => simp [fixMembers]
  | cons mv rest ih =>
      obtain ⟨m, v⟩ := mv
      by_cases hv : v.value.isSome = true
      · simp only [fixMembers, if_pos hv]
        intro kv hkv
        rcases List.mem_cons.mp hkv with hkv | hkv
        · subst hkv
          simp [hv]
        · exact ih (fun x hx => h x (List.mem_cons_of_mem _ hx)) kv hkv
      · simp only [fixMembers, if_neg hv]
        intro kv hkv
        rcases List.mem_cons.mp hkv with hkv | hkv
        · subst hkv
          have hf : v.fixed = false := h (m, v) (List.mem_cons_self _ _)
          simp [hf]
        · have hf : kv.2.fixed = false := h kv (List.mem_cons_of_mem _ hkv)
          simp [hf]

theorem cv1dFixSource_fail_iff (d : List (String × SEntry)) :
    (cv1dFixSource d).2 = false ↔ hasNoneValue d = true := by
  induction d with
  | nil => simp [cv1dFixSource, hasNoneValue]
  | cons kv rest ih =>
      obtain ⟨k, e⟩ := kv
      cases e with
      | scalar v =>
          cases hv : v.value with
          | none => simp [cv1dFixSource, hasNoneValue, hv]
          | some a =>
              simp only [cv1dFixSource, hv, Option.isSome_some, if_pos]
              simpa [hasNoneValue, hv] using ih
      | indexed l =>
          by_cases hm : (fixMembers l).2 = true
          · simp only [cv1dFixSource, hm, if_pos]
            have hl : l.any (fun mv => mv.2.value.isNone) = false := by
              rcases hb : l.any (fun mv => mv.2.value.isNone) with _ | _
              · rfl
              · exact absurd ((fixMembers_fail_iff l).mpr hb) (by simp [hm])
            simpa [hasNoneValue, hl] using ih
          · have hm' : (fixMembers l).2 = false := by
              rcases hb : (fixMembers l).2 with _ | _
              · rfl
              · exact absurd hb hm
            have hl : l.any (fun mv => mv.2.value.isNone) = true :=
              (fixMembers_fail_iff l).mp hm'
            simp [cv1dFixSource, hm', hasNoneValue, hl]

theorem cv1dFixSource_fixed_value (d : List (String × SEntry))
    (h : ∀ kv ∈ d, kv.2.allUnfixed = true) :
    ∀ kv ∈ (cv1dFixSource d).1, kv.2.fixedHasValue = true := by
  induction d with
  | nil => simp [cv1dFixSource]
  | cons kv rest ih =>
      obtain ⟨k, e⟩ := kv
      have hrest : ∀ x ∈ rest, x.2.allUnfixed = true :=
        fun x hx => h x (List.mem_cons_of_mem _ hx)
      have hhead : SEntry.allUnfixed e = true := h (k, e) (List.mem_cons_self _ _)
      have hofUnfixed : ∀ x : String × SEntry, x.2.allUnfixed = true →
          x.2.fixedHasValue = true := by
        rintro ⟨k', e'⟩ he'
        cases e' with
        | scalar v =>
            simp only [SEntry.allUnfixed] at he'
            simp [SEntry.fixedHasValue, he']
        | indexed l =>
            simp only [SEntry.allUnfixed, List.all_eq_true] at he'
            simp only [SEntry.fixedHasValue, List.all_eq_true]
            intro mv hmv
            simp [he' mv hmv]
      cases e with
      | scalar v =>
          cases hv : v.value with
          | none =>
              simp only [cv1dFixSource, hv, Option.isSome_none, if_neg]
              intro x hx
              rcases List.mem_cons.mp hx with hx | hx
              · subst hx
                simp only [SEntry.allUnfixed] at hhead
                simp [SEntry.fixedHasValue, hhead]
              · exact hofUnfixed x (hrest x hx)
          | some a =>
              simp only [cv1dFixSource, hv, Option.isSome_some, if_pos]
              intro x hx
              rcases List.mem_cons.mp hx with hx | hx
              · subst hx
                simp [SEntry.fixedHasValue, hv]
              · exact ih hrest x hx
      | indexed l =>
          have hlun : ∀ mv ∈ l, mv.2.fixed = false := by
            simp only [SEntry.allUnfixed, List.all_eq_true] at hhead
            intro mv hmv
            simpa using hhead mv hmv
          have hfix : ∀ mv ∈ (fixMembers l).1, (!mv.2.fixed || mv.2.value.isSome) = true :=
            fixMembers_fixed_value l hlun
          by_cases hm : (fixMembers l).2 = true
          · simp only [cv1dFixSource, hm, if_pos]
            intro x hx
            rcases List.mem_cons.mp hx with hx | hx
            · subst hx
              simp only [SEntry.fixedHasValue, List.all_eq_true]
              exact hfix
            · exact ih hrest x hx
          · have hm' : (fixMembers l).2 = false := by
              rcases hb : (fixMembers l).2 with _ | _
              · rfl
              · exact absurd hb hm
            simp only [cv1dFixSource, hm', Bool.false_eq_true, if_neg]
            intro x hx
            rcases List.mem_cons.mp hx with hx | hx
            · subst hx
              simp only [SEntry.fixedHasValue, List.all_eq_true]
              exact hfix
            · exact hofUnfixed x (hrest x hx)

/-- C9 counterexample: the 0-D variant, asked to gather state_args from a
state variable whose current value is None, raises nothing and produces an
argument set containing that None — it proceeds to initialize with it,
instead of failing as the claim requires for both variants. -/
theorem claim_c9_none_counterexample :
    hasNoneValue [("flow_mol", SEntry.scalar ⟨none, false⟩)] = true ∧
    argHasNone (cv0dGatherStateArgs [("flow_mol", SEntry.scalar ⟨none, false⟩)]) = true := by
  decide

/-- C9 amended: only the 1-D variant validates — its source-fixing pass
raises exactly when some state variable value is None, and (starting from
unfixed variables) it never fixes a variable whose value is None; the 0-D
variant copies the current values into state_args unconditionally, None
included, with no error path. -/
theorem claim_c9_none_amended (d : List (String × SEntry))
    (h : ∀ kv ∈ d, kv.2.allUnfixed = true) :
    ((cv1dFixSource d).2 = false ↔ hasNoneValue d = true) ∧
    (∀ kv ∈ (cv1dFixSource d).1, kv.2.fixedHasValue = true) ∧
    cv0dGatherStateArgs d = d.map (fun kv => (kv.1, kv.2.toArg)) :=
  ⟨cv1dFixSource_fail_iff d, cv1dFixSource_fixed_value d h, rfl⟩

/-- Witness for the amended C9 at a concrete input. -/
theorem claim_c9_none_amended_witness :
    ((cv1dFixSource [("flow_mol", SEntry.scalar ⟨some 1, false⟩)]).2 = false
      ↔ hasNoneValue [("flow_mol", SEntry.scalar ⟨some 1, false⟩)] = true) :=
  (claim_c9_none_amended [("flow_mol", SEntry.scalar ⟨some 1, false⟩)] (by decide)).1

/-! Helper lemma for counting the 1-D phase-fraction constraints. -/

theorem length_flatten_map_map {α β γ : Type} (T : List α) (X : List β) (g : α → β → γ) :
    ((T.map (fun t => X.map (g t))).flatten).length = T.length * X.length := by
  induction T with
  | nil => simp
  | cons a T ih =>
      simp only [List.map_cons, List.flatten_cons, List.length_append,
                 List.length_map, List.length_cons, ih]
      ring

/-- C4: with exactly one declared phase, _add_phase_fractions (both
variants) creates phase_fraction as a derived expression of constant value
1, with no variable and no constraint; with more than one phase it creates
a variable initialized at 1/num_phases plus exactly one constraint per
domain point, each satisfied precisely when the phase fractions at that
point sum to 1. -/
theorem claim_c4_phase_fractions
    (pp1 ppn : PropertyPackage) (timePts lenPts : List ℚ)
    (h1 : pp1.phase_list.length = 1) (hn : 1 < ppn.phase_list.length) :
    (add_phase_fractions0D pp1 timePts).varInit = none ∧
    (add_phase_fractions0D pp1 timePts).exprConst = some 1 ∧
    (add_phase_fractions0D pp1 timePts).constraints = [] ∧
    (add_phase_fractions1D pp1 timePts lenPts).varInit = none ∧
    (add_phase_fractions1D pp1 timePts lenPts).exprConst = some 1 ∧
    (add_phase_fractions1D pp1 timePts lenPts).constraints = [] ∧
    (add_phase_fractions0D ppn timePts).varInit
      = some (1 / (ppn.phase_list.length : ℚ)) ∧
    (add_phase_fractions0D ppn timePts).exprConst = none ∧
    (add_phase_fractions0D ppn timePts).constraints.length = timePts.length ∧
    (∀ (vv : VName → List Idx → ℚ) (pv : PName → ℚ),
      (∀ c ∈ (add_phase_fractions0D ppn timePts).constraints, cSatisfied vv pv c) ↔
      (∀ t ∈ timePts,
        (ppn.phase_list.map (fun p =>
          vv VName.phase_fraction [Idx.num t, Idx.str p])).sum = 1)) ∧
    (add_phase_fractions1D ppn timePts lenPts).varInit
      = some (1 / (ppn.phase_list.length : ℚ)) ∧
    (add_phase_fractions1D ppn timePts lenPts).exprConst = none ∧
    (add_phase_fractions1D ppn timePts lenPts).constraints.length
      = timePts.length * lenPts.length ∧
    (∀ (vv : VName → List Idx → ℚ) (pv : PName → ℚ),
      (∀ c ∈ (add_phase_fractions1D ppn timePts lenPts).constraints,
          cSatisfied vv pv c) ↔
      (∀ t ∈ timePts, ∀ x ∈ lenPts,
        (ppn.phase_list.map (fun p =>
          vv VName.phase_fraction [Idx.num t, Idx.num x, Idx.str p])).sum = 1)) := by
  have hno1 : ¬ 1 < pp1.phase_list.length := by omega
  have key0 : ∀ (vv : VName → List Idx → ℚ) (pv : PName → ℚ) (t : ℚ),
      cSatisfied vv pv (Expr.lit 1, esum (ppn.phase_list.map (fun p =>
        Expr.evar VName.phase_fraction [Idx.num t, Idx.str p])))
      ↔ (ppn.phase_list.map (fun p =>
           vv VName.phase_fraction [Idx.num t, Idx.str p])).sum = 1 := by
    intro vv pv t
    unfold cSatisfied
    rw [show ((Expr.lit 1, esum (ppn.phase_list.map (fun p =>
          Expr.evar VName.phase_fraction [Idx.num t, Idx.str p]))) : Constraint).2
        = esum (ppn.phase_list.map (fun p =>
            Expr.evar VName.phase_fraction [Idx.num t, Idx.str p])) from rfl,
        eval_esum, List.map_map]
    simp [Expr.eval, Function.comp_def, eq_comm]
  have key1 : ∀ (vv : VName → List Idx → ℚ) (pv : PName → ℚ) (t x : ℚ),
      cSatisfied vv pv (Expr.lit 1, esum (ppn.phase_list.map (fun p =>
        Expr.evar VName.phase_fraction [Idx.num t, Idx.num x, Idx.str p])))
      ↔ (ppn.phase_list.map (fun p =>
           vv VName.phase_fraction [Idx.num t, Idx.num x, Idx.str p])).sum = 1 := by
    intro vv pv t x
    unfold cSatisfied
    rw [show ((Expr.lit 1, esum (ppn.phase_list.map (fun p =>
          Expr.evar VName.phase_fraction [Idx.num t, Idx.num x, Idx.str p]))) : Constraint).2
        = esum (ppn.phase_list.map (fun p =>
            Expr.evar VName.phase_fraction [Idx.num t, Idx.num x, Idx.str p])) from rfl,
        eval_esum, List.map_map]
    simp [Expr.eval, Function.comp_def, eq_comm]
  refine ⟨?_, ?_, ?_, ?_, ?_, ?_, ?_, ?_, ?_, ?_, ?_, ?_, ?_, ?_⟩
  · simp [add_phase_fractions0D, hno1]
  · simp [add_phase_fractions0D, hno1]
  · simp [add_phase_fractions0D, hno1]
  · simp [add_phase_fractions1D, hno1]
  · simp [add_phase_fractions1D, hno1]
  · simp [add_phase_fractions1D, hno1]
  · simp [add_phase_fractions0D, hn]
  · simp [add_phase_fractions0D, hn]
  · simp [add_phase_fractions0D, hn]
  · intro vv pv
    simp only [add_phase_fractions0D, if_pos hn]
    constructor
    · intro hall t ht
      exact (key0 vv pv t).mp (hall _ (List.mem_map_of_mem _ ht))
    · intro hall c hc
      obtain ⟨t, ht, rfl⟩ := List.mem_map.mp hc
      exact (key0 vv pv t).mpr (hall t ht)
  · simp [add_phase_fractions1D, hn]
  · simp [add_phase_fractions1D, hn]
  · simp only [add_phase_fractions1D, if_pos hn]
    exact length_flatten_map_map timePts lenPts _
  · intro vv pv
    simp only [add_phase_fractions1D, if_pos hn]
    constructor
    · intro hall t ht x hx
      refine (key1 vv pv t x).mp (hall _ ?_)
      refine List.mem_flatten.mpr ⟨_, List.mem_map_of_mem _ ht, ?_⟩
      exact List.mem_map_of_mem _ hx
    · intro hall c hc
      obtain ⟨l, hl, hcl⟩ := List.mem_flatten.mp hc
      obtain ⟨t, ht, rfl⟩ := List.mem_map.mp hl
      obtain ⟨x, hx, rfl⟩ := List.mem_map.mp hcl
      exact (key1 vv pv t x).mpr (hall t ht x hx)

/-- Witness for C4 at concrete single- and two-phase packages. -/
theorem claim_c4_phase_fractions_witness :
    (add_phase_fractions0D
        ⟨["Liq"], ["a"], [("Liq", "a")], [], fun _ => ("a", "Liq", "Vap")⟩ [0]).constraints
      = [] ∧
    (add_phase_fractions0D
        ⟨["Liq", "Vap"], ["a"], [("Liq", "a")], [], fun _ => ("a", "Liq", "Vap")⟩
        [0]).constraints.length = [(0 : ℚ)].length :=
  ⟨(claim_c4_phase_fractions
      ⟨["Liq"], ["a"], [("Liq", "a")], [], fun _ => ("a", "Liq", "Vap")⟩
      ⟨["Liq", "Vap"], ["a"], [("Liq", "a")], [], fun _ => ("a", "Liq", "Vap")⟩
      [0] [0, 1] (by decide) (by decide)).2.2.1,
   (claim_c4_phase_fractions
      ⟨["Liq"], ["a"], [("Liq", "a")], [], fun _ => ("a", "Liq", "Vap")⟩
      ⟨["Liq", "Vap"], ["a"], [("Liq", "a")], [], fun _ => ("a", "Liq", "Vap")⟩
      [0] [0, 1] (by decide) (by decide)).2.2.2.2.2.2.2.2.1⟩

/-- C5: in component-phase material balances with phase equilibrium
enabled, the phase-equilibrium generation term at any point evaluates, on
both variants, to the sum over the package's phase-equilibrium reaction
indices of the generation variable times the spec's signed indicator (+1
when the reaction's target component is j and p is the first phase of its
pair, -1 when p is the second phase, 0 otherwise, in particular whenever
the target component differs from j). -/
theorem claim_c5_phase_equilibrium_generation
    (cfg : MatBalCfg) (pp : PropertyPackage) (t x : ℚ) (p j : String)
    (vv : VName → List Idx → ℚ) (pv : PName → ℚ)
    (h1 : cfg.has_phase_equilibrium = true)
    (h2 : cfg.balance_type = MaterialBalanceType.componentPhase) :
    (phase_equilibrium_term0D cfg pp t p j).eval vv pv
      = (pp.phase_equilibrium_idx.map (fun r =>
          vv VName.phase_equilibrium_generation [Idx.num t, Idx.str r] *
            specPhaseEquilibriumIndicator pp r p j)).sum ∧
    (phase_equilibrium_term1D cfg pp t x p j).eval vv pv
      = (pp.phase_equilibrium_idx.map (fun r =>
          vv VName.phase_equilibrium_generation [Idx.num t, Idx.num x, Idx.str r] *
            specPhaseEquilibriumIndicator pp r p j)).sum := by
  have hsd : ∀ r, sd0D pp r p j = specPhaseEquilibriumIndicator pp r p j := by
    intro r
    unfold sd0D specPhaseEquilibriumIndicator
    by_cases hc : (pp.phase_equilibrium_list r).1 = j
    · by_cases ha : (pp.phase_equilibrium_list r).2.1 = p
      · simp [hc, ha]
      · by_cases hb : (pp.phase_equilibrium_list r).2.2 = p <;> simp [hc, ha, hb]
    · simp [hc]
  have hsd1 : ∀ r, sd1D pp r p j = specPhaseEquilibriumIndicator pp r p j := by
    intro r
    unfold sd1D specPhaseEquilibriumIndicator
    by_cases hc : (pp.phase_equilibrium_list r).1 = j
    · by_cases ha : (pp.phase_equilibrium_list r).2.1 = p
      · simp [hc, ha]
      · by_cases hb : (pp.phase_equilibrium_list r).2.2 = p <;> simp [hc, ha, hb]
    · simp [hc]
  constructor
  · unfold phase_equilibrium_term0D
    rw [if_pos (show (_ && _) = true by rw [h1, h2]; rfl)]
    rw [eval_esum, List.map_map]
    simp [Expr.eval, Function.comp_def, hsd]
  · unfold phase_equilibrium_term1D
    rw [if_pos (show (_ && _) = true by rw [h1, h2]; rfl)]
    rw [eval_esum, List.map_map]
    simp [Expr.eval, Function.comp_def, hsd1]

/-- Witness for C5 at a concrete two-reaction package. -/
theorem claim_c5_phase_equilibrium_generation_witness :
    (phase_equilibrium_term0D
        ⟨MaterialBalanceType.componentPhase, false, false, false, false, true, false⟩
        ⟨["Liq", "Vap"], ["a"], [("Liq", "a"), ("Vap", "a")], ["e1", "e2"],
         fun r => if r = "e1" then ("a", "Liq", "Vap") else ("b", "Liq", "Vap")⟩
        0 "Liq" "a").eval (fun _ _ => 2) (fun _ => 1)
      = ((["e1", "e2"] : List String).map (fun r =>
          (fun (_ : VName) (_ : List Idx) => (2 : ℚ)) VName.phase_equilibrium_generation
              [Idx.num 0, Idx.str r] *
            specPhaseEquilibriumIndicator
              ⟨["Liq", "Vap"], ["a"], [("Liq", "a"), ("Vap", "a")], ["e1", "e2"],
               fun r => if r = "e1" then ("a", "Liq", "Vap") else ("b", "Liq", "Vap")⟩
              r "Liq" "a")).sum :=
  (claim_c5_phase_equilibrium_generation
      ⟨MaterialBalanceType.componentPhase, false, false, false, false, true, false⟩
      ⟨["Liq", "Vap"], ["a"], [("Liq", "a"), ("Vap", "a")], ["e1", "e2"],
       fun r => if r = "e1" then ("a", "Liq", "Vap") else ("b", "Liq", "Vap")⟩
      0 0 "Liq" "a" (fun _ _ => 2) (fun _ => 1) rfl rfl).1

/-- C6: the 0-D enthalpy balance is homogeneous of degree one in
scaling_factor_energy on both sides, and the 0-D pressure balance in
scaling_factor_pressure: rescaling the parameter rescales every additive
term — including the accumulation side — identically, so no term appears
unscaled.  (custom terms are required not to smuggle the parameter in.) -/
theorem claim_c6_balance_scaling
    (dyn hh hw hr hpc : Bool) (ce cp : Option (ℚ → Expr)) (pp : PropertyPackage)
    (t s : ℚ) (vv : VName → List Idx → ℚ) (pv : PName → ℚ)
    (hce : ∀ u, (user_term_t ce u).paramFree = true)
    (hcp : ∀ u, (user_term_t cp u).paramFree = true) :
    ((enthalpy_balances0D dyn hh hw hr ce pp t).1.eval vv
        (pvUpd pv PName.scaling_factor_energy s)
      = s * (enthalpy_balances0D dyn hh hw hr ce pp t).1.eval vv
            (pvUpd pv PName.scaling_factor_energy 1)) ∧
    ((enthalpy_balances0D dyn hh hw hr ce pp t).2.eval vv
        (pvUpd pv PName.scaling_factor_energy s)
      = s * (enthalpy_balances0D dyn hh hw hr ce pp t).2.eval vv
            (pvUpd pv PName.scaling_factor_energy 1)) ∧
    ((pressure_balance0D hpc cp t).1.eval vv (pvUpd pv PName.scaling_factor_pressure s)
      = s * (pressure_balance0D hpc cp t).1.eval vv
            (pvUpd pv PName.scaling_factor_pressure 1)) ∧
    ((pressure_balance0D hpc cp t).2.eval vv (pvUpd pv PName.scaling_factor_pressure s)
      = s * (pressure_balance0D hpc cp t).2.eval vv
            (pvUpd pv PName.scaling_factor_pressure 1)) := by
  have hA : (esum (pp.phase_list.map (fun p =>
      e_accumulation_term0D dyn t p))).paramFree = true := by
    refine paramFree_esum _ ?_
    intro e he
    obtain ⟨p, hp, rfl⟩ := List.mem_map.mp he
    cases dyn <;> simp [e_accumulation_term0D, Expr.paramFree]
  have hIn : (esum (pp.phase_list.map (fun p =>
      Expr.evar VName.enthalpy_flow_in [Idx.num t, Idx.str p]))).paramFree = true := by
    refine paramFree_esum _ ?_
    intro e he
    obtain ⟨p, hp, rfl⟩ := List.mem_map.mp he
    rfl
  have hOut : (esum (pp.phase_list.map (fun p =>
      Expr.evar VName.enthalpy_flow_out [Idx.num t, Idx.str p]))).paramFree = true := by
    refine paramFree_esum _ ?_
    intro e he
    obtain ⟨p, hp, rfl⟩ := List.mem_map.mp he
    rfl
  have hHeat : (heat_term0D hh t).paramFree = true := by
    cases hh <;> rfl
  have hWork : (work_term0D hw t).paramFree = true := by
    cases hw <;> rfl
  have hRxn : (rxn_heat_term0D hr t).paramFree = true := by
    cases hr <;> rfl
  have hDp : (deltaP_term0D hpc t).paramFree = true := by
    cases hpc <;> rfl
  have hL1 : (enthalpy_balances0D dyn hh hw hr ce pp t).1.scaledBy
      PName.scaling_factor_energy = true := by
    simp [enthalpy_balances0D, Expr.scaledBy, sfE, Expr.isParamN, hA]
  have hR1 : (enthalpy_balances0D dyn hh hw hr ce pp t).2.scaledBy
      PName.scaling_factor_energy = true := by
    simp [enthalpy_balances0D, Expr.scaledBy, sfE, Expr.isParamN, hIn, hOut,
          hHeat, hWork, hRxn, hce t]
  have hL2 : (pressure_balance0D hpc cp t).1.scaledBy
      PName.scaling_factor_pressure = true := by
    simp [pressure_balance0D, Expr.scaledBy]
  have hR2 : (pressure_balance0D hpc cp t).2.scaledBy
      PName.scaling_factor_pressure = true := by
    simp [pressure_balance0D, Expr.scaledBy, sfP, Expr.isParamN, hDp, hcp t,
          Expr.paramFree]
  exact ⟨scaledBy_eval_hom _ vv pv s _ hL1, scaledBy_eval_hom _ vv pv s _ hR1,
         scaledBy_eval_hom _ vv pv s _ hL2, scaledBy_eval_hom _ vv pv s _ hR2⟩

/-- Witness for C6 at concrete inputs: a two-phase package, all term flags
on, no custom terms, scaling value 7. -/
theorem claim_c6_balance_scaling_witness :
    (enthalpy_balances0D true true true true none
        ⟨["Liq", "Vap"], ["a"], [("Liq", "a"), ("Vap", "a")], [],
         fun _ => ("a", "Liq", "Vap")⟩ 0).1.eval (fun _ _ => 2)
        (pvUpd (fun _ => 3) PName.scaling_factor_energy 7)
      = 7 * (enthalpy_balances0D true true true true none
        ⟨["Liq", "Vap"], ["a"], [("Liq", "a"), ("Vap", "a")], [],
         fun _ => ("a", "Liq", "Vap")⟩ 0).1.eval (fun _ _ => 2)
        (pvUpd (fun _ => 3) PName.scaling_factor_energy 1) :=
  (claim_c6_balance_scaling true true true true true none none
      ⟨["Liq", "Vap"], ["a"], [("Liq", "a"), ("Vap", "a")], [],
       fun _ => ("a", "Liq", "Vap")⟩ 0 7 (fun _ _ => 2) (fun _ => 3)
      (fun _ => rfl) (fun _ => rfl)).1

/-- C1: for every 1-D balance family — component-phase material,
component-total material, element, enthalpy and pressure — and every time
point, the per-point rule yields no constraint exactly under the single
boundary-skip rule (first point of the length domain when the configured
transformation_scheme is not FORWARD, last point when it is FORWARD); with
distinct endpoints, exactly one of the two endpoints is skipped, and it is
the one the rule designates.  (For the component-phase family the pair
(p, j) is assumed to lie in the phase-component set, since that family
also writes no constraint, at every point alike, for absent pairs.) -/
theorem claim_c1_boundary_skip
    (cfg : MatBalCfg) (pp : PropertyPackage) (scheme : String)
    (first last fdt t x : ℚ) (p j el : String)
    (cmp cmsp : Option (ℚ → ℚ → String → String → Expr))
    (cmt cmst : Option (ℚ → ℚ → String → Expr))
    (cel : Option (ℚ → ℚ → String → Expr)) (cen cpr : Option (ℚ → ℚ → Expr))
    (fb : FlowBasis) (mwok dyn hmt hh hw hr hpc : Bool)
    (hp : (p, j) ∈ pp.pc_set) (hfl : first ≠ last) :
    (material_balances1Dcp cfg pp scheme first last fdt cmp cmsp fb mwok t x p j
        = Except.ok none ↔ boundarySkip scheme first last x) ∧
    (material_balances1Dct cfg pp scheme first last fdt cmt cmst fb mwok t x j
        = Except.ok none ↔ boundarySkip scheme first last x) ∧
    (element_balances1D dyn hmt cel scheme first last fdt t x el = none
        ↔ boundarySkip scheme first last x) ∧
    (enthalpy_balances1D dyn hh hw hr cen pp scheme first last fdt t x = none
        ↔ boundarySkip scheme first last x) ∧
    (pressure_balance1D hpc cpr scheme first last fdt t x = none
        ↔ boundarySkip scheme first last x) ∧
    (boundarySkip scheme first last first ↔ ¬ scheme = "FORWARD") ∧
    (boundarySkip scheme first last last ↔ scheme = "FORWARD") ∧
    ¬ (boundarySkip scheme first last first ∧ boundarySkip scheme first last last) ∧
    (boundarySkip scheme first last first ∨ boundarySkip scheme first last last) := by
  have hf : boundarySkip scheme first last first ↔ ¬ scheme = "FORWARD" := by
    unfold boundarySkip
    constructor
    · rintro (⟨h1, _⟩ | ⟨_, h2⟩)
      · exact h1
      · exact absurd h2 hfl
    · intro h
      exact Or.inl ⟨h, rfl⟩
  have hl : boundarySkip scheme first last last ↔ scheme = "FORWARD" := by
    unfold boundarySkip
    constructor
    · rintro (⟨_, h2⟩ | ⟨h1, _⟩)
      · exact absurd h2.symm hfl
      · exact h1
    · intro h
      exact Or.inr ⟨h, rfl⟩
  have hcp : material_balances1Dcp cfg pp scheme first last fdt cmp cmsp fb mwok t x p j
      = Except.ok none ↔ boundarySkip scheme first last x := by
    unfold material_balances1Dcp boundarySkip
    by_cases hs : (¬ scheme = "FORWARD" ∧ x = first) ∨ (scheme = "FORWARD" ∧ x = last)
    · rw [if_pos hs]
      simp [hs]
    · rw [if_neg hs, if_pos hp]
      cases hm : user_term_mol1Dcp cmp fb mwok t x p j with
      | error e => simp [hs]
      | ok um =>
          cases hms : user_term_mass1Dcp cmsp fb mwok t x p j with
          | error e => simp [hs]
          | ok ums => simp [hs]
  have hct : material_balances1Dct cfg pp scheme first last fdt cmt cmst fb mwok t x j
      = Except.ok none ↔ boundarySkip scheme first last x := by
    unfold material_balances1Dct boundarySkip
    by_cases hs : (¬ scheme = "FORWARD" ∧ x = first) ∨ (scheme = "FORWARD" ∧ x = last)
    · rw [if_pos hs]
      simp [hs]
    · rw [if_neg hs]
      cases hm : user_term_mol1Dct cmt fb mwok t x j with
      | error e => simp [hs]
      | ok um =>
          cases hms : user_term_mass1Dct cmst fb mwok t x j with
          | error e => simp [hs]
          | ok ums => simp [hs]
  have hel : element_balances1D dyn hmt cel scheme first last fdt t x el = none
      ↔ boundarySkip scheme first last x := by
    unfold element_balances1D boundarySkip
    by_cases hs : (¬ scheme = "FORWARD" ∧ x = first) ∨ (scheme = "FORWARD" ∧ x = last)
    · rw [if_pos hs]
      simp [hs]
    · rw [if_neg hs]
      simp [hs]
  have hen : enthalpy_balances1D dyn hh hw hr cen pp scheme first last fdt t x = none
      ↔ boundarySkip scheme first last x := by
    unfold enthalpy_balances1D boundarySkip
    by_cases hs : (¬ scheme = "FORWARD" ∧ x = first) ∨ (scheme = "FORWARD" ∧ x = last)
    · rw [if_pos hs]
      simp [hs]
    · rw [if_neg hs]
      simp [hs]
  have hpr : pressure_balance1D hpc cpr scheme first last fdt t x = none
      ↔ boundarySkip scheme first last x := by
    unfold pressure_balance1D boundarySkip
    by_cases hs : (¬ scheme = "FORWARD" ∧ x = first) ∨ (scheme = "FORWARD" ∧ x = last)
    · rw [if_pos hs]
      simp [hs]
    · rw [if_neg hs]
      simp [hs]
  refine ⟨hcp, hct, hel, hen, hpr, hf, hl, ?_, ?_⟩
  · rintro ⟨ha, hb⟩
    exact (hf.mp ha) (hl.mp hb)
  · by_cases hS : scheme = "FORWARD"
    · exact Or.inr (hl.mpr hS)
    · exact Or.inl (hf.mpr hS)

/-- Witness for C1 at a concrete input: BACKWARD scheme on the domain with
endpoints 0 and 1, evaluated at the first point. -/
theorem claim_c1_boundary_skip_witness :
    material_balances1Dcp
        ⟨MaterialBalanceType.componentPhase, false, false, false, false, false, false⟩
        ⟨["Liq"], ["a"], [("Liq", "a")], [], fun _ => ("a", "Liq", "Vap")⟩
        "BACKWARD" 0 1 1 none none FlowBasis.molar true 0 0 "Liq" "a"
      = Except.ok none ↔ boundarySkip "BACKWARD" 0 1 0 :=
  (claim_c1_boundary_skip
      ⟨MaterialBalanceType.componentPhase, false, false, false, false, false, false⟩
      ⟨["Liq"], ["a"], [("Liq", "a")], [], fun _ => ("a", "Liq", "Vap")⟩
      "BACKWARD" 0 1 1 0 0 "Liq" "a" "H" none none none none none none none
      FlowBasis.molar true false false false false false false
      (by decide) (by norm_num)).1

/-- C3 counterexample: a component-total material balance requested with
has_phase_equilibrium = True completes without error, yet the
phase_equilibrium_generation variable is NOT created (the source also
requires the balance type to be component-phase), contradicting the
claim's "if the flag is True the variable exists" for every call. -/
theorem claim_c3_term_toggles_counterexample :
    (addMaterialBalances0D capableEnv0D
        ⟨MaterialBalanceType.componentTotal, false, false, false, false, true, false⟩
        emptyCV).2 = none ∧
    MatBalCfg.has_phase_equilibrium
        ⟨MaterialBalanceType.componentTotal, false, false, false, false, true, false⟩
      = true ∧
    VName.phase_equilibrium_generation ∉
      (addMaterialBalances0D capableEnv0D
        ⟨MaterialBalanceType.componentTotal, false, false, false, false, true, false⟩
        emptyCV).1.vars := by
  decide

/-- C3 amended: on a fresh control volume with a fully capable package, a
material-balance call that completes without error creates each toggleable
variable iff its flag is on — except phase_equilibrium_generation, which
additionally requires the balance type to be component-phase; and whenever
a term's flag is off (or, for phase equilibrium, the balance type is not
component-phase) the term substituted into the balance equation is the
literal 0, on both the 0-D and the 1-D variant. -/
theorem claim_c3_term_toggles_amended :
    (∀ cfg : MatBalCfg,
      (addMaterialBalances0D capableEnv0D cfg emptyCV).2 = none →
      ((VName.material_holdup ∈ (addMaterialBalances0D capableEnv0D cfg emptyCV).1.vars
          ↔ cfg.has_holdup = true) ∧
       (VName.material_accumulation
            ∈ (addMaterialBalances0D capableEnv0D cfg emptyCV).1.vars
          ↔ cfg.dynamic = true) ∧
       (VName.rate_reaction_generation
            ∈ (addMaterialBalances0D capableEnv0D cfg emptyCV).1.vars
          ↔ cfg.has_rate_reactions = true) ∧
       (VName.equilibrium_reaction_generation
            ∈ (addMaterialBalances0D capableEnv0D cfg emptyCV).1.vars
          ↔ cfg.has_equilibrium_reactions = true) ∧
       (VName.mass_transfer_term
            ∈ (addMaterialBalances0D capableEnv0D cfg emptyCV).1.vars
          ↔ cfg.has_mass_transfer = true) ∧
       (VName.phase_equilibrium_generation
            ∈ (addMaterialBalances0D capableEnv0D cfg emptyCV).1.vars
          ↔ (cfg.has_phase_equilibrium = true ∧
             cfg.balance_type = MaterialBalanceType.componentPhase)))) ∧
    (∀ cfg : MatBalCfg,
      (addMaterialBalances1D capableEnv1D cfg emptyCV).2 = none →
      ((VName.material_holdup ∈ (addMaterialBalances1D capableEnv1D cfg emptyCV).1.vars
          ↔ cfg.has_holdup = true) ∧
       (VName.material_accumulation
            ∈ (addMaterialBalances1D capableEnv1D cfg emptyCV).1.vars
          ↔ cfg.dynamic = true) ∧
       (VName.rate_reaction_generation
            ∈ (addMaterialBalances1D capableEnv1D cfg emptyCV).1.vars
          ↔ cfg.has_rate_reactions = true) ∧
       (VName.equilibrium_reaction_generation
            ∈ (addMaterialBalances1D capableEnv1D cfg emptyCV).1.vars
          ↔ cfg.has_equilibrium_reactions = true) ∧
       (VName.mass_transfer_term
            ∈ (addMaterialBalances1D capableEnv1D cfg emptyCV).1.vars
          ↔ cfg.has_mass_transfer = true) ∧
       (VName.phase_equilibrium_generation
            ∈ (addMaterialBalances1D capableEnv1D cfg emptyCV).1.vars
          ↔ (cfg.has_phase_equilibrium = true ∧
             cfg.balance_type = MaterialBalanceType.componentPhase)))) ∧
    (∀ (cfg : MatBalCfg) (t x : ℚ) (p j : String),
      (cfg.dynamic = false →
        accumulation_term0D cfg t p j = Expr.lit 0 ∧
        accumulation_term1D cfg t x p j = Expr.lit 0) ∧
      (cfg.has_rate_reactions = false →
        kinetic_term0D cfg t p j = Expr.lit 0 ∧
        kinetic_term1D cfg t x p j = Expr.lit 0) ∧
      (cfg.has_equilibrium_reactions = false →
        equilibrium_term0D cfg t p j = Expr.lit 0 ∧
        equilibrium_term1D cfg t x p j = Expr.lit 0) ∧
      (cfg.has_mass_transfer = false →
        transfer_term0D cfg t p j = Expr.lit 0 ∧
        transfer_term1D cfg t x p j = Expr.lit 0) ∧
      (∀ pp : PropertyPackage,
        (cfg.has_phase_equilibrium = false ∨
         ¬ cfg.balance_type = MaterialBalanceType.componentPhase) →
        phase_equilibrium_term0D cfg pp t p j = Expr.lit 0 ∧
        phase_equilibrium_term1D cfg pp t x p j = Expr.lit 0)) := by
  refine ⟨?_, ?_, ?_⟩
  · intro cfg
    rcases cfg with ⟨bt, dyn, hhold, hrate, hequil, hpe, hmt⟩
    cases bt <;> cases dyn <;> cases hhold <;> cases hrate <;> cases hequil <;>
      cases hpe <;> cases hmt <;> decide
  · intro cfg
    rcases cfg with ⟨bt, dyn, hhold, hrate, hequil, hpe, hmt⟩
    cases bt <;> cases dyn <;> cases hhold <;> cases hrate <;> cases hequil <;>
      cases hpe <;> cases hmt <;> decide
  · intro cfg t x p j
    refine ⟨?_, ?_, ?_, ?_, ?_⟩
    · intro h
      exact ⟨by simp [accumulation_term0D, h], by simp [accumulation_term1D, h]⟩
    · intro h
      exact ⟨by simp [kinetic_term0D, h], by simp [kinetic_term1D, h]⟩
    · intro h
      exact ⟨by simp [equilibrium_term0D, h], by simp [equilibrium_term1D, h]⟩
    · intro h
      exact ⟨by simp [transfer_term0D, h], by simp [transfer_term1D, h]⟩
    · intro pp h
      rcases h with h | h
      · exact ⟨by simp [phase_equilibrium_term0D, h],
               by simp [phase_equilibrium_term1D, h]⟩
      · have hb : (cfg.balance_type == MaterialBalanceType.componentPhase) = false := by
          cases hbt : cfg.balance_type
          · exact absurd hbt h
          · rfl
          · rfl
          · rfl
        exact ⟨by simp [phase_equilibrium_term0D, hb],
               by simp [phase_equilibrium_term1D, hb]⟩

/-- Witness for the amended C3: has_holdup = True creates material_holdup
on the 0-D variant. -/
theorem claim_c3_term_toggles_amended_witness :
    VName.material_holdup ∈
      (addMaterialBalances0D capableEnv0D
        ⟨MaterialBalanceType.componentPhase, false, true, false, false, false, false⟩
        emptyCV).1.vars
    ↔ MatBalCfg.has_holdup
        ⟨MaterialBalanceType.componentPhase, false, true, false, false, false, false⟩
      = true :=
  (claim_c3_term_toggles_amended.1
      ⟨MaterialBalanceType.componentPhase, false, true, false, false, false, false⟩
      (by decide)).1

end IdaesCV
